import Mathlib

/-!
# Clever Cloud Terraform provider: resource reconciliation

A shallow embedding of the resource logic of

* `clevercloud/resource_application.go` (generic application resource), and
* `pkg/resources/php/resource_php_crud.go` (PHP application resource),

followed by theorems about the catalog resolver, the specification normaliser,
the owner routing, the remote-representation translator, the virtual-host
partition and the create/read/delete lifecycle.

Remote calls are functions of a client record; every handler returns, next to
its diagnostics and state, the list of remote calls it made, in order.  A Go
run-time panic (index out of range, nil dereference) is an explicit outcome.
-/

/-! ## Generic application resource (`package clevercloud`) -/

namespace Clevercloud

/-- Outcome of a Go function returning `(value, error)`: a value, an error, or a
run-time panic. -/
inductive GoResult (α : Type) where
  | ok (value : α)
  | error (err : String)
  | panic (msg : String)
  deriving DecidableEq, Repr

/-- `types.String` of the plugin framework: the three public fields. -/
structure TypesString where
  Unknown : Bool := false
  Null : Bool := false
  Value : String := ""
  deriving DecidableEq, Repr

/-- `types.Bool` of the plugin framework. -/
structure TypesBool where
  Unknown : Bool := false
  Null : Bool := false
  Value : Bool := false
  deriving DecidableEq, Repr

/-- `types.Number` of the plugin framework; the `*big.Float` value is a rational. -/
structure TypesNumber where
  Unknown : Bool := false
  Null : Bool := false
  Value : ℚ := 0
  deriving DecidableEq

/-- `types.List` with string elements. -/
structure TypesList where
  Unknown : Bool := false
  Null : Bool := false
  Elems : List TypesString := []
  deriving DecidableEq, Repr

structure ApplicationScalability where
  MinInstances : TypesNumber := {}
  MaxInstances : TypesNumber := {}
  MinFlavor : TypesString := {}
  MaxFlavor : TypesString := {}
  MaxAllowedInstances : TypesNumber := {}
  deriving DecidableEq

structure ApplicationProperties where
  Homogeneous : TypesBool := {}
  StickySessions : TypesBool := {}
  CancelOnPush : TypesBool := {}
  ForceHTTPS : TypesBool := {}
  deriving DecidableEq, Repr

structure ApplicationBuild where
  SeparateBuild : TypesBool := {}
  BuildFlavor : TypesString := {}
  deriving DecidableEq, Repr

/-- The resource model `Application` (plan and state shape). -/
structure Application where
  ID : TypesString := {}
  Name : TypesString := {}
  Description : TypesString := {}
  Type_ : TypesString := {}
  Zone : TypesString := {}
  DeployType : TypesString := {}
  DeployUrl : TypesString := {}
  OrganizationID : TypesString := {}
  Scalability : ApplicationScalability := {}
  Properties : ApplicationProperties := {}
  Build : ApplicationBuild := {}
  Favorite : TypesBool := {}
  Archived : TypesBool := {}
  Tags : TypesList := {}
  deriving DecidableEq

structure FlavorView where
  Name : String := ""
  deriving DecidableEq, Repr

structure InstanceVariantView where
  Id : String := ""
  Slug : String := ""
  deriving DecidableEq, Repr

/-- Catalog entry `clevercloud.AvailableInstanceView`; the defaults are Go's zero
value. -/
structure AvailableInstanceView where
  Enabled : Bool := false
  Variant : InstanceVariantView := {}
  Version : String := ""
  DefaultFlavor : FlavorView := {}
  BuildFlavor : FlavorView := {}
  Flavors : List FlavorView := []
  deriving DecidableEq, Repr

/-- Request `clevercloud.WannabeApplication`; the defaults are Go's zero value. -/
structure WannabeApplication where
  Name : String := ""
  Description : String := ""
  Zone : String := ""
  Deploy : String := ""
  InstanceType : String := ""
  InstanceVersion : String := ""
  InstanceVariant : String := ""
  MinInstances : Int := 0
  MaxInstances : Int := 0
  MinFlavor : String := ""
  MaxFlavor : String := ""
  SeparateBuild : Bool := false
  BuildFlavor : String := ""
  Homogeneous : Bool := false
  StickySessions : Bool := false
  CancelOnPush : Bool := false
  ForceHttps : String := ""
  Favourite : Bool := false
  Archived : Bool := false
  Tags : List String := []
  deriving DecidableEq, Repr

structure ApplicationViewInstance where
  Type_ : String := ""
  MinInstances : Int := 0
  MaxInstances : Int := 0
  MinFlavor : FlavorView := {}
  MaxFlavor : FlavorView := {}
  MaxAllowedInstances : Int := 0
  deriving DecidableEq, Repr

structure ApplicationViewDeployment where
  Type_ : String := ""
  Url : String := ""
  deriving DecidableEq, Repr

/-- Remote representation `clevercloud.ApplicationView`. -/
structure ApplicationView where
  Id : String := ""
  Name : String := ""
  Description : String := ""
  Zone : String := ""
  Instance : ApplicationViewInstance := {}
  Deployment : ApplicationViewDeployment := {}
  OwnerId : String := ""
  Homogeneous : Bool := false
  StickySessions : Bool := false
  CancelOnPush : Bool := false
  ForceHttps : String := ""
  SeparateBuild : Bool := false
  BuildFlavor : FlavorView := {}
  Favourite : Bool := false
  Archived : Bool := false
  deriving DecidableEq, Repr

/-- An API error `clevercloud.GenericOpenAPIError`: its message and its body. -/
structure GenericOpenAPIError where
  Error : String := ""
  Body : String := ""
  deriving DecidableEq, Repr

/-- A Go `error` returned by a call of the client: a
`clevercloud.GenericOpenAPIError`, or an error value of another type, with its
text. -/
inductive ClientError where
  | openAPI (err : GenericOpenAPIError)
  | other (text : String)
  deriving DecidableEq, Repr

/-- The text `err.Error()`. -/
def ClientError.Error : ClientError → String
  | .openAPI err => err.Error
  | .other text => text

/-- The remote operations of `clevercloud.APIClient` that the resource consumes,
each as the answer the remote gives. -/
structure APIClient where
  GetAvailableInstances : Except ClientError (List AvailableInstanceView)
  GetUser : Except ClientError Unit
  AddSelfApplication : WannabeApplication → Except ClientError ApplicationView
  GetSelfApplicationTagsByAppId : String → Except ClientError (List String)
  GetSelfApplicationByAppId : String → Except ClientError ApplicationView
  AddApplicationByOrga : String → WannabeApplication → Except ClientError ApplicationView
  GetApplicationTagsByOrgaAndAppId : String → String → Except ClientError (List String)
  GetApplicationByOrgaAndAppId : String → String → Except ClientError ApplicationView

/-- A remote call, as recorded in a handler's trace. -/
inductive ApiCall where
  | GetAvailableInstances
  | GetUser
  | AddSelfApplication (body : WannabeApplication)
  | GetSelfApplicationTagsByAppId (appId : String)
  | GetSelfApplicationByAppId (appId : String)
  | AddApplicationByOrga (id : String) (body : WannabeApplication)
  | GetApplicationTagsByOrgaAndAppId (id appId : String)
  | GetApplicationByOrgaAndAppId (id appId : String)
  deriving DecidableEq, Repr

/-- The call belongs to the self-scoped surface (`SelfApi`). -/
def ApiCall.isSelf : ApiCall → Bool
  | .GetUser => true
  | .AddSelfApplication _ => true
  | .GetSelfApplicationTagsByAppId _ => true
  | .GetSelfApplicationByAppId _ => true
  | _ => false

/-- The call belongs to the organization-scoped surface (`OrganisationApi`) and
carries the organization identifier `org`. -/
def ApiCall.isOrga (org : String) : ApiCall → Bool
  | .AddApplicationByOrga id _ => id == org
  | .GetApplicationTagsByOrgaAndAppId id _ => id == org
  | .GetApplicationByOrgaAndAppId id _ => id == org
  | _ => false

/-- An error diagnostic: summary and detail. -/
structure Diagnostic where
  Summary : String
  Detail : String
  deriving DecidableEq, Repr

/-- The parts of the plugin framework the resource calls: reading a list
attribute into a Go slice (`none`: diagnostics were returned) and writing the
state (`false`: diagnostics were returned). -/
structure Tfsdk where
  ElementsAs : TypesList → Option (List String)
  StateSet : Application → Bool

structure provider where
  configured : Bool
  client : APIClient

structure resourceApplication where
  p : provider

/-- What a handler leaves behind: diagnostics, the state it wrote (`none`: the
handler wrote no state), the remote calls it made, and whether it panicked. -/
structure Response where
  Diagnostics : List Diagnostic := []
  State : Option Application := none
  Calls : List ApiCall := []
  Panicked : Bool := false
  deriving DecidableEq

def Application.attributeDescriptionOrDefault (app : Application) : String :=
  if app.Description.Unknown || app.Description.Null then app.Name.Value
  else app.Description.Value

def Application.attributeZoneOrDefault (app : Application) : String :=
  if app.Zone.Unknown || app.Zone.Null then "par" else app.Zone.Value

def Application.attributeDeployTypeOrDefault (app : Application) : String :=
  if app.DeployType.Unknown || app.DeployType.Null then "GIT" else app.DeployType.Value

/-- Go's `a < b` on strings, on the lists of characters: lexicographic order
(byte order of UTF-8 text is the order of its code points). -/
def lessChars : List Char → List Char → Bool
  | _, [] => false
  | [], _ :: _ => true
  | a :: as, b :: bs =>
    if a.toNat < b.toNat then true
    else if b.toNat < a.toNat then false
    else lessChars as bs

/-- Go's `a < b` on strings. -/
def stringLess (a b : String) : Bool := lessChars a.toList b.toList

/-- The order `sort.Strings` sorts by: `a` may stand before `b`. -/
def stringLE (a b : String) : Prop := stringLess b a = false

instance stringLE.decidable : DecidableRel stringLE :=
  fun a b => inferInstanceAs (Decidable (stringLess b a = false))

/-- `sort.Strings`: the increasing rearrangement of the slice. -/
def sortStrings (a : List String) : List String := List.insertionSort stringLE a

def getInstanceByType (cc : APIClient) (instanceType : String) :
    GoResult AvailableInstanceView :=
  match cc.GetAvailableInstances with
  | .error err => .error err.Error
  | .ok instances =>
    let enabledInstances := instances.filter (fun inst => inst.Enabled)
    let matchingInstances :=
      enabledInstances.filter (fun inst => inst.Variant.Slug == instanceType)
    let instanceVersions := sortStrings (matchingInstances.map (fun inst => inst.Version))
    match instanceVersions.getLast? with
    | none => .panic "runtime error: index out of range [-1]"
    | some latestInstanceVersion =>
      .ok (matchingInstances.foldl
        (fun latestInstance inst =>
          if inst.Version == latestInstanceVersion then inst else latestInstance)
        ({} : AvailableInstanceView))

def Application.attributeForceHttpsToString (app : Application) : String :=
  if app.Properties.ForceHTTPS.Value then "ENABLED" else "DISABLED"

def forceHttpsToBool (value : String) : Bool :=
  if value == "ENABLED" then true else false

/-- `(*big.Float).Int64`: truncation towards zero, saturating at the bounds of
`int64`. -/
def bigFloatInt64 (x : ℚ) : Int :=
  let t := Int.tdiv x.num x.den
  if t < -(2 ^ 63) then -(2 ^ 63) else if 2 ^ 63 - 1 < t then 2 ^ 63 - 1 else t

/-- The conversion `int32(v)` of an `int64`: the low 32 bits, signed. -/
def int32 (v : Int) : Int := (v + 2 ^ 31) % 2 ^ 32 - 2 ^ 31

/-- One round of the flavor loop of `applicationModelToWannabeApplication`. -/
def flavorStep (plan : Application) (w : WannabeApplication) (flavor : FlavorView) :
    WannabeApplication :=
  let w1 :=
    if !plan.Scalability.MinFlavor.Unknown && plan.Scalability.MinFlavor.Value == flavor.Name
    then { w with MinFlavor := flavor.Name } else w
  let w2 :=
    if !plan.Scalability.MaxFlavor.Unknown && plan.Scalability.MaxFlavor.Value == flavor.Name
    then { w1 with MaxFlavor := flavor.Name } else w1
  if !plan.Build.BuildFlavor.Unknown && plan.Build.BuildFlavor.Value == flavor.Name
  then { w2 with BuildFlavor := flavor.Name } else w2

/-- The request as `applicationModelToWannabeApplication` first builds it, and
the assignment of the build fields when the separate-build flag is not unknown. -/
def wannabeBase (plan : Application) (planApplicationInstance : AvailableInstanceView) :
    WannabeApplication :=
  let defaultFlavorName := planApplicationInstance.DefaultFlavor.Name
  let planMinInstances : Int :=
    if !plan.Scalability.MinInstances.Unknown && !plan.Scalability.MinInstances.Null
    then int32 (bigFloatInt64 plan.Scalability.MinInstances.Value) else 1
  let planMaxInstances : Int :=
    if !plan.Scalability.MaxInstances.Unknown && !plan.Scalability.MaxInstances.Null
    then int32 (bigFloatInt64 plan.Scalability.MaxInstances.Value) else 1
  let wannabeApplication : WannabeApplication :=
    { Name := plan.Name.Value
      Description := plan.attributeDescriptionOrDefault
      Zone := plan.attributeZoneOrDefault
      Deploy := plan.attributeDeployTypeOrDefault
      InstanceType := plan.Type_.Value
      InstanceVersion := planApplicationInstance.Version
      InstanceVariant := planApplicationInstance.Variant.Id
      MinInstances := planMinInstances
      MaxInstances := planMaxInstances
      MinFlavor := defaultFlavorName
      MaxFlavor := defaultFlavorName }
  if !plan.Build.SeparateBuild.Unknown then
    { wannabeApplication with
      SeparateBuild := plan.Build.SeparateBuild.Value
      BuildFlavor := planApplicationInstance.BuildFlavor.Name }
  else wannabeApplication

/-- The assignments of `applicationModelToWannabeApplication` that follow the
flavor loop: each flag is copied when it is not unknown. -/
def wannabeFlags (plan : Application) (w : WannabeApplication) : WannabeApplication :=
  let w :=
    if !plan.Properties.Homogeneous.Unknown then
      { w with Homogeneous := !plan.Properties.Homogeneous.Value } else w
  let w :=
    if !plan.Properties.StickySessions.Unknown then
      { w with StickySessions := plan.Properties.StickySessions.Value } else w
  let w :=
    if !plan.Properties.CancelOnPush.Unknown then
      { w with CancelOnPush := plan.Properties.CancelOnPush.Value } else w
  let w :=
    if !plan.Properties.ForceHTTPS.Unknown then
      { w with ForceHttps := plan.attributeForceHttpsToString } else w
  let w := if !plan.Favorite.Unknown then { w with Favourite := plan.Favorite.Value } else w
  if !plan.Archived.Unknown then { w with Archived := plan.Archived.Value } else w

/-- The body of `applicationModelToWannabeApplication` between the catalog
lookup and the reading of the tags: the first assignments, the flavor loop, the
flags. -/
def wannabeOfInstance (plan : Application) (planApplicationInstance : AvailableInstanceView) :
    WannabeApplication :=
  wannabeFlags plan
    (planApplicationInstance.Flavors.foldl (flavorStep plan)
      (wannabeBase plan planApplicationInstance))

/-- Result of `applicationModelToWannabeApplication`: the request, an error
diagnostic, or a panic. -/
inductive WannabeResult where
  | ok (w : WannabeApplication)
  | diag (d : Diagnostic)
  | panic (msg : String)
  deriving DecidableEq, Repr

def resourceApplication.applicationModelToWannabeApplication (r : resourceApplication)
    (tf : Tfsdk) (plan : Application) : WannabeResult :=
  match getInstanceByType r.p.client plan.Type_.Value with
  | .panic msg => .panic msg
  | .error err =>
    .diag ⟨"Error fetching instance type from plan",
      "An unexpected error was encountered while reading the plan: " ++ err⟩
  | .ok planApplicationInstance =>
    let wannabeApplication := wannabeOfInstance plan planApplicationInstance
    match tf.ElementsAs plan.Tags with
    | none =>
      .diag ⟨"Error interfacing tags from plan",
        "An unexpected error was encountered while reading the plan."⟩
    | some tags => .ok { wannabeApplication with Tags := tags }

def applicationViewToApplicationModel (application : ApplicationView) : Application :=
  { ID := { Value := application.Id }
    Name := { Value := application.Name }
    Description := { Value := application.Description }
    Type_ := { Value := application.Instance.Type_ }
    Zone := { Value := application.Zone }
    DeployType := { Value := application.Deployment.Type_ }
    DeployUrl := { Value := application.Deployment.Url }
    OrganizationID := { Value := application.OwnerId }
    Scalability :=
      { MinInstances := { Value := (application.Instance.MinInstances : ℚ) }
        MaxInstances := { Value := (application.Instance.MaxInstances : ℚ) }
        MinFlavor := { Value := application.Instance.MinFlavor.Name }
        MaxFlavor := { Value := application.Instance.MaxFlavor.Name }
        MaxAllowedInstances := { Value := (application.Instance.MaxAllowedInstances : ℚ) } }
    Properties :=
      { Homogeneous := { Value := !application.Homogeneous }
        StickySessions := { Value := application.StickySessions }
        CancelOnPush := { Value := application.CancelOnPush }
        ForceHTTPS := { Value := forceHttpsToBool application.ForceHttps } }
    Build :=
      { SeparateBuild := { Value := application.SeparateBuild }
        BuildFlavor := { Value := application.BuildFlavor.Name } }
    Favorite := { Value := application.Favourite }
    Archived := { Value := application.Archived }
    Tags := {} }

/-- `formatRequestClientError`; `none` is the panic of the unchecked type
assertion `err.(clevercloud.GenericOpenAPIError)` on an error of another type. -/
def formatRequestClientError (err : ClientError) : Option String :=
  match err with
  | .openAPI err =>
    some ("An unexpected error was encountered while requesting the API: " ++ err.Error
      ++ "\n\n" ++ err.Body ++ "\n")
  | .other _ => none

/-- The statement pair `resp.Diagnostics.AddError(summary,
formatRequestClientError(err)); return` of `Create`, after the calls made so
far. -/
def requestError (calls : List ApiCall) (summary : String) (err : ClientError) : Response :=
  match formatRequestClientError err with
  | some detail => { Diagnostics := [⟨summary, detail⟩], Calls := calls }
  | none => { Calls := calls, Panicked := true }

/-- The tail shared by `Create` and `Read`: translate the remote application,
append the tags, write the state. -/
def finish (tf : Tfsdk) (calls : List ApiCall) (application : ApplicationView)
    (tags : List String) (summary detail : String) : Response :=
  let result := applicationViewToApplicationModel application
  let result :=
    { result with
      Tags := { result.Tags with
        Elems := result.Tags.Elems ++ tags.map (fun tag => ({ Value := tag } : TypesString)) } }
  if tf.StateSet result then { State := some result, Calls := calls }
  else { Diagnostics := [⟨summary, detail⟩], Calls := calls }

def resourceApplication.Create (r : resourceApplication) (tf : Tfsdk)
    (planGet : Option Application) : Response :=
  if !r.p.configured then
    { Diagnostics :=
        [⟨"Provider not configured", "The provider hasn't been configured before apply."⟩] }
  else
  match planGet with
  | none =>
    { Diagnostics :=
        [⟨"Error reading plan", "An unexpected error was encountered while reading the plan."⟩] }
  | some plan =>
  match r.applicationModelToWannabeApplication tf plan with
  | .panic _ => { Calls := [.GetAvailableInstances], Panicked := true }
  | .diag err => { Diagnostics := [err], Calls := [.GetAvailableInstances] }
  | .ok wannabeApplication =>
  if plan.OrganizationID.Unknown || plan.OrganizationID.Null then
    match r.p.client.GetUser with
    | .error err =>
      requestError [.GetAvailableInstances, .GetUser]
        "Request error while fetching self user" err
    | .ok _ =>
    match r.p.client.AddSelfApplication wannabeApplication with
    | .error err =>
      requestError [.GetAvailableInstances, .GetUser, .AddSelfApplication wannabeApplication]
        "Request error while creating application for self" err
    | .ok application =>
    match r.p.client.GetSelfApplicationTagsByAppId application.Id with
    | .error err =>
      requestError
        [.GetAvailableInstances, .GetUser, .AddSelfApplication wannabeApplication,
          .GetSelfApplicationTagsByAppId application.Id]
        "Request error while fetching application tags for self" err
    | .ok tags =>
      finish tf
        [.GetAvailableInstances, .GetUser, .AddSelfApplication wannabeApplication,
          .GetSelfApplicationTagsByAppId application.Id]
        application tags "Error setting application state"
        "Could not set state, unexpected error."
  else
    match r.p.client.AddApplicationByOrga plan.OrganizationID.Value wannabeApplication with
    | .error err =>
      requestError
        [.GetAvailableInstances,
          .AddApplicationByOrga plan.OrganizationID.Value wannabeApplication]
        ("Request error while creating application for organization: "
          ++ plan.OrganizationID.Value) err
    | .ok application =>
    match r.p.client.GetApplicationTagsByOrgaAndAppId plan.OrganizationID.Value
        application.Id with
    | .error err =>
      requestError
        [.GetAvailableInstances,
          .AddApplicationByOrga plan.OrganizationID.Value wannabeApplication,
          .GetApplicationTagsByOrgaAndAppId plan.OrganizationID.Value application.Id]
        "Request error while fetching application tags for organization" err
    | .ok tags =>
      finish tf
        [.GetAvailableInstances,
          .AddApplicationByOrga plan.OrganizationID.Value wannabeApplication,
          .GetApplicationTagsByOrgaAndAppId plan.OrganizationID.Value application.Id]
        application tags "Error setting application state"
        "Could not set state, unexpected error."

def resourceApplication.Read (r : resourceApplication) (tf : Tfsdk)
    (stateGet : Option Application) : Response :=
  match stateGet with
  | none =>
    { Diagnostics :=
        [⟨"Error reading state", "An unexpected error was encountered while reading the state."⟩] }
  | some state =>
  let applicationID := state.ID.Value
  let detail := fun (err : ClientError) =>
    "An unexpected error was encountered while requesting the api: " ++ err.Error
  if !state.OrganizationID.Null then
    match r.p.client.GetUser with
    | .error err =>
      { Diagnostics := [⟨"Request error while fetching self user", detail err⟩]
        Calls := [.GetUser] }
    | .ok _ =>
    match r.p.client.GetSelfApplicationByAppId applicationID with
    | .error err =>
      { Diagnostics := [⟨"Request error while reading application for self", detail err⟩]
        Calls := [.GetUser, .GetSelfApplicationByAppId applicationID] }
    | .ok application =>
    match r.p.client.GetSelfApplicationTagsByAppId application.Id with
    | .error err =>
      { Diagnostics := [⟨"Request error while fetching application tags for self", detail err⟩]
        Calls := [.GetUser, .GetSelfApplicationByAppId applicationID,
          .GetSelfApplicationTagsByAppId application.Id] }
    | .ok tags =>
      finish tf
        [.GetUser, .GetSelfApplicationByAppId applicationID,
          .GetSelfApplicationTagsByAppId application.Id]
        application tags "Error setting state"
        "Unexpected error encountered trying to set new state."
  else
    match r.p.client.GetApplicationByOrgaAndAppId state.OrganizationID.Value applicationID with
    | .error err =>
      { Diagnostics :=
          [⟨"Request error while reading application for organization: "
              ++ state.OrganizationID.Value, detail err⟩]
        Calls := [.GetApplicationByOrgaAndAppId state.OrganizationID.Value applicationID] }
    | .ok application =>
    match r.p.client.GetApplicationTagsByOrgaAndAppId state.OrganizationID.Value
        application.Id with
    | .error err =>
      { Diagnostics :=
          [⟨"Request error while fetching application tags for organization", detail err⟩]
        Calls := [.GetApplicationByOrgaAndAppId state.OrganizationID.Value applicationID,
          .GetApplicationTagsByOrgaAndAppId state.OrganizationID.Value application.Id] }
    | .ok tags =>
      finish tf
        [.GetApplicationByOrgaAndAppId state.OrganizationID.Value applicationID,
          .GetApplicationTagsByOrgaAndAppId state.OrganizationID.Value application.Id]
        application tags "Error setting state"
        "Unexpected error encountered trying to set new state."

end Clevercloud

/-! ## PHP application resource (`package provider`, `pkg/resources/php`) -/

namespace ResourcePHP

/-- `types.String` of the plugin framework: null, unknown, or a known value. -/
inductive TString where
  | null
  | unknown
  | value (s : String)
  deriving DecidableEq, Repr

/-- `types.String.ValueString`: the known value, the empty string otherwise. -/
def TString.ValueString : TString → String
  | .value s => s
  | _ => ""

/-- `types.Int64` of the plugin framework. -/
inductive TInt64 where
  | null
  | unknown
  | value (i : Int)
  deriving DecidableEq, Repr

/-- `types.Int64.ValueInt64`: the known value, zero otherwise. -/
def TInt64.ValueInt64 : TInt64 → Int
  | .value i => i
  | _ => 0

/-- `types.List` of strings of the plugin framework. -/
inductive TList where
  | null
  | unknown
  | value (elems : List TString)
  deriving DecidableEq, Repr

/-- A diagnostic of the plugin framework. -/
structure Diagnostic where
  IsError : Bool
  Summary : String
  Detail : String
  deriving DecidableEq, Repr

/-- `Diagnostics.HasError`. -/
def HasError (diags : List Diagnostic) : Bool := diags.any (fun d => d.IsError)

/-- The resource model `PHP`, with the attributes the lifecycle handlers touch. -/
structure PHP where
  ID : TString := .null
  Name : TString := .null
  Description : TString := .null
  MinInstanceCount : TInt64 := .null
  MaxInstanceCount : TInt64 := .null
  SmallestFlavor : TString := .null
  BiggestFlavor : TString := .null
  BuildFlavor : TString := .null
  Region : TString := .null
  DeployURL : TString := .null
  VHost : TString := .null
  AdditionalVHosts : TList := .null
  deriving DecidableEq, Repr

/-- Answer `client.Response[T]` of a remote call: the error text when there is
an error, whether the error is a not-found, and the payload (`none`: a nil
pointer). -/
structure Response (α : Type) where
  err : Option String := none
  notFound : Bool := false
  payload : Option α := none

def Response.HasError {α : Type} (res : Response α) : Bool := res.err.isSome

def Response.IsNotFoundError {α : Type} (res : Response α) : Bool := res.notFound

/-- The text `res.Error().Error()`. -/
def Response.ErrorText {α : Type} (res : Response α) : String := res.err.getD ""

structure Variant where
  ID : String := ""
  deriving DecidableEq, Repr

structure ProductInstance where
  Type_ : String := ""
  Name : String := ""
  Version : String := ""
  Variant : Variant := {}
  deriving DecidableEq, Repr

structure CreateAppRequest where
  Name : String := ""
  Deploy : String := ""
  Description : String := ""
  InstanceType : String := ""
  InstanceVariant : String := ""
  InstanceVersion : String := ""
  BuildFlavor : String := ""
  MinFlavor : String := ""
  MaxFlavor : String := ""
  MinInstances : Int := 0
  MaxInstances : Int := 0
  Zone : String := ""
  CancelOnPush : Bool := false
  deriving DecidableEq, Repr

structure Flavor where
  Name : String := ""
  deriving DecidableEq, Repr

structure Instance where
  MinInstances : Int := 0
  MaxInstances : Int := 0
  MinFlavor : Flavor := {}
  MaxFlavor : Flavor := {}
  deriving DecidableEq, Repr

structure Vhost where
  Fqdn : String := ""
  deriving DecidableEq, Repr

/-- The remote application `tmp.CreatAppResponse`. -/
structure CreatAppResponse where
  ID : String := ""
  Name : String := ""
  Description : String := ""
  Zone : String := ""
  DeployURL : String := ""
  Instance : Instance := {}
  SeparateBuild : Bool := false
  BuildFlavor : Flavor := {}
  Vhosts : List Vhost := []
  deriving DecidableEq, Repr

/-- The remote operations of package `tmp` that the resource consumes, each as
the answer the remote gives; the first argument of the scoped ones is the
organization. -/
structure Tmp where
  GetProductInstance : Response (List ProductInstance)
  CreateApp : String → CreateAppRequest → Response CreatAppResponse
  UpdateAppEnv : String → String → List (String × String) → Response Unit
  AddAppVHost : String → String → String → Response Unit
  GetApp : String → String → Response CreatAppResponse
  DeleteApp : String → String → Response Unit

/-- A remote call, as recorded in a handler's trace. -/
inductive Call where
  | GetProductInstance
  | CreateApp (org : String) (req : CreateAppRequest)
  | UpdateAppEnv (org appId : String) (env : List (String × String))
  | AddAppVHost (org appId vhost : String)
  | GetApp (org appId : String)
  | DeleteApp (org appId : String)
  deriving DecidableEq, Repr

/-- What the handlers use of the plugin framework and of the rest of the model:
`PHP.toEnv`, `ElementsAs` on a list attribute (the slice read and the
diagnostics) and the diagnostics of `State.Set`. -/
structure Framework where
  toEnv : PHP → List (String × String)
  ElementsAs : TList → List String × List Diagnostic
  StateSet : PHP → List Diagnostic

/-- The resource `ResourcePHP`; the client `cc` is the record of remote
operations. -/
structure Resource where
  cc : Tmp
  org : String

/-- What a handler leaves behind: the diagnostics, the state (`none`: the
resource is absent from the state), the remote calls made, and whether the
handler panicked. -/
structure HandlerResponse where
  Diagnostics : List Diagnostic := []
  State : Option PHP := none
  Calls : List Call := []
  Panicked : Bool := false
  deriving DecidableEq, Repr

/-- `resp.Diagnostics.AddError`. -/
def HandlerResponse.AddError (resp : HandlerResponse) (summary detail : String) :
    HandlerResponse :=
  { resp with Diagnostics := resp.Diagnostics ++ [⟨true, summary, detail⟩] }

/-- `resp.Diagnostics.Append`. -/
def HandlerResponse.Append (resp : HandlerResponse) (diags : List Diagnostic) :
    HandlerResponse :=
  { resp with Diagnostics := resp.Diagnostics ++ diags }

/-- `resp.State.Set` followed by appending its diagnostics: the state is
written unless the diagnostics carry an error. -/
def HandlerResponse.Set (resp : HandlerResponse) (fw : Framework) (value : PHP) :
    HandlerResponse :=
  let diags := fw.StateSet value
  { resp with
    State := if HasError diags then resp.State else some value
    Diagnostics := resp.Diagnostics ++ diags }

/-- `resp.State.RemoveResource`. -/
def HandlerResponse.RemoveResource (resp : HandlerResponse) : HandlerResponse :=
  { resp with State := none }

/-- Records a remote call in the trace. -/
def HandlerResponse.call (resp : HandlerResponse) (c : Call) : HandlerResponse :=
  { resp with Calls := resp.Calls ++ [c] }

/-- A run-time panic: the handler stops there. -/
def HandlerResponse.panic (resp : HandlerResponse) : HandlerResponse :=
  { resp with Panicked := true }

/-- Modelled from the spec: `pkg.FromStr` is not among the sources; it wraps a Go
string as a known string value. -/
def pkg.FromStr (s : String) : TString := .value s

/-- Modelled from the spec: `pkg.FromI` is not among the sources; it wraps a Go
`int64` as a known number value. -/
def pkg.FromI (i : Int) : TInt64 := .value i

/-- Modelled from the spec: `pkg.FromListString` is not among the sources; it
wraps a Go slice of strings as a known list of known strings. -/
def pkg.FromListString (items : List String) : TList := .value (items.map TString.value)

/-- Modelled from the spec: `pkg.Map` is not among the sources; it applies the
function to every element, in order. -/
def pkg.Map {α β : Type} (items : List α) (fn : α → β) : List β := items.map fn

/-- Modelled from the spec: `pkg.Filter` is not among the sources; it keeps, in
their order, the elements the predicate accepts ("all entries ... that do not
match the default pattern"). -/
def pkg.Filter {α : Type} (items : List α) (fn : α → Bool) : List α := items.filter fn

/-- Modelled from the spec: `pkg.HasSome` is not among the sources; it tells
whether some element is accepted by the predicate. -/
def pkg.HasSome {α : Type} (items : List α) (fn : α → Bool) : Bool := items.any fn

/-- Modelled from the spec: `pkg.First` is not among the sources; it returns a
pointer to the first element the predicate accepts ("the first encountered is
reported"), nil when there is none. -/
def pkg.First {α : Type} (items : List α) (fn : α → Bool) : Option α := items.find? fn

/-- `vhostCleverAppsReg.MatchString` for the pattern `^app-.*\.cleverapps\.io$`:
the text starts with `app-`, ends with `.cleverapps.io`, the two do not overlap,
and what stands between them has no line feed (which `.` does not match). -/
def vhostCleverAppsReg (vhost : String) : Bool :=
  let cs := vhost.toList
  let pre := "app-".toList
  let suf := ".cleverapps.io".toList
  decide (pre.length + suf.length ≤ cs.length)
    && cs.take pre.length == pre
    && cs.drop (cs.length - suf.length) == suf
    && ((cs.drop pre.length).take (cs.length - pre.length - suf.length)).all
        (fun c => c != Char.ofNat 10)

/-- The loop of `Create` over the products: the first one of type `php` named
`PHP` gives the version and the variant, both empty when there is none. -/
def findVariant (products : List ProductInstance) : String × String :=
  match products.find? (fun product => !(product.Type_ != "php" || product.Name != "PHP")) with
  | some product => (product.Version, product.Variant.ID)
  | none => ("", "")

/-- One round of the loop of `Create` over the additional hostnames. -/
def addVHostStep (r : Resource) (appId : String) (resp : HandlerResponse) (vhost : String) :
    HandlerResponse :=
  let addVhostRes := r.cc.AddAppVHost r.org appId vhost
  let resp := resp.call (.AddAppVHost r.org appId vhost)
  if addVhostRes.HasError then
    resp.AddError "failed to add additional vhost" addVhostRes.ErrorText
  else resp

/-- `ResourcePHP.Create`; `plan` and `planDiags` are what `req.Plan.Get` gives. -/
def Create (r : Resource) (fw : Framework) (plan : PHP) (planDiags : List Diagnostic) :
    HandlerResponse :=
  let resp : HandlerResponse := { Diagnostics := planDiags }
  if HasError resp.Diagnostics then resp else
  let productRes := r.cc.GetProductInstance
  let resp := resp.call .GetProductInstance
  if productRes.HasError then resp.AddError "failed to get variant" productRes.ErrorText else
  match productRes.payload with
  | none => resp.panic
  | some products =>
  let (version, variantID) := findVariant products
  if version == "" || variantID == "" then
    resp.AddError "failed to get variant" "there id no product matching 'node'"
  else
  let createAppReq : CreateAppRequest :=
    { Name := plan.Name.ValueString
      Deploy := "git"
      Description := plan.Description.ValueString
      InstanceType := "php"
      InstanceVariant := variantID
      InstanceVersion := version
      BuildFlavor := plan.BuildFlavor.ValueString
      MinFlavor := plan.SmallestFlavor.ValueString
      MaxFlavor := plan.BiggestFlavor.ValueString
      MinInstances := plan.MinInstanceCount.ValueInt64
      MaxInstances := plan.MaxInstanceCount.ValueInt64
      Zone := plan.Region.ValueString
      CancelOnPush := false }
  let res := r.cc.CreateApp r.org createAppReq
  let resp := resp.call (.CreateApp r.org createAppReq)
  if res.HasError then resp.AddError "failed to create app" res.ErrorText else
  match res.payload with
  | none => resp.panic
  | some appRes =>
  match appRes.Vhosts with
  | [] => resp.panic
  | vhost0 :: _ =>
  let plan :=
    { plan with
      ID := pkg.FromStr appRes.ID
      DeployURL := pkg.FromStr appRes.DeployURL
      VHost := pkg.FromStr vhost0.Fqdn }
  let resp := resp.Set fw plan
  if HasError resp.Diagnostics then resp else
  let envRes := r.cc.UpdateAppEnv r.org appRes.ID (fw.toEnv plan)
  let resp := resp.call (.UpdateAppEnv r.org appRes.ID (fw.toEnv plan))
  let resp :=
    if envRes.HasError then resp.AddError "failed to configure application" envRes.ErrorText
    else resp
  let (vhosts, diags) := fw.ElementsAs plan.AdditionalVHosts
  let resp := resp.Append diags
  if HasError resp.Diagnostics then resp else
  let vhostsWithoutDefault := pkg.Filter vhosts (fun vhost => !vhostCleverAppsReg vhost)
  vhostsWithoutDefault.foldl (addVHostStep r appRes.ID) resp

/-- The part of `ResourcePHP.Read` that rebuilds the state from the remote
application; `none` is the nil dereference of `*pkg.First(...)`. -/
def readState (state : PHP) (appPHP : CreatAppResponse) : Option PHP :=
  let state :=
    { state with
      Name := pkg.FromStr appPHP.Name
      Description := pkg.FromStr appPHP.Description
      MinInstanceCount := pkg.FromI appPHP.Instance.MinInstances
      MaxInstanceCount := pkg.FromI appPHP.Instance.MaxInstances
      SmallestFlavor := pkg.FromStr appPHP.Instance.MinFlavor.Name
      BiggestFlavor := pkg.FromStr appPHP.Instance.MaxFlavor.Name
      Region := pkg.FromStr appPHP.Zone
      DeployURL := pkg.FromStr appPHP.DeployURL }
  let state :=
    if appPHP.SeparateBuild then { state with BuildFlavor := pkg.FromStr appPHP.BuildFlavor.Name }
    else { state with BuildFlavor := TString.null }
  let vhosts := pkg.Map appPHP.Vhosts (fun vhost => vhost.Fqdn)
  let hasDefaultVHost := pkg.HasSome vhosts (fun vhost => vhostCleverAppsReg vhost)
  let vhostsWithoutDefault := pkg.Filter vhosts (fun vhost => !vhostCleverAppsReg vhost)
  let additional :=
    if vhostsWithoutDefault.length > 0 then pkg.FromListString vhostsWithoutDefault
    else TList.null
  if hasDefaultVHost then
    match pkg.First vhosts (fun vhost => vhostCleverAppsReg vhost) with
    | none => none
    | some cleverapps =>
      some { state with VHost := pkg.FromStr cleverapps, AdditionalVHosts := additional }
  else some { state with VHost := TString.null, AdditionalVHosts := additional }

/-- `ResourcePHP.Read`; `state` and `stateDiags` are what `req.State.Get` gives. -/
def Read (r : Resource) (fw : Framework) (state : PHP) (stateDiags : List Diagnostic) :
    HandlerResponse :=
  let resp : HandlerResponse := { State := some state, Diagnostics := stateDiags }
  if HasError resp.Diagnostics then resp else
  let appRes := r.cc.GetApp r.org state.ID.ValueString
  let resp := resp.call (.GetApp r.org state.ID.ValueString)
  let resp := if appRes.IsNotFoundError then resp.RemoveResource else resp
  if appRes.IsNotFoundError && HasError resp.Diagnostics then resp else
  let resp := if appRes.HasError then resp.AddError "failed to get app" appRes.ErrorText else resp
  match appRes.payload with
  | none => resp.panic
  | some appPHP =>
  match readState state appPHP with
  | none => resp.panic
  | some state => resp.Set fw state

/-- `ResourcePHP.Delete`; `state` and `stateDiags` are what `req.State.Get`
gives. -/
def Delete (r : Resource) (state : PHP) (stateDiags : List Diagnostic) : HandlerResponse :=
  let resp : HandlerResponse := { State := some state, Diagnostics := stateDiags }
  if HasError resp.Diagnostics then resp else
  let res := r.cc.DeleteApp r.org state.ID.ValueString
  let resp := resp.call (.DeleteApp r.org state.ID.ValueString)
  if res.IsNotFoundError then resp.RemoveResource else
  if res.HasError then resp.AddError "failed to delete app" res.ErrorText else
  resp.RemoveResource

end ResourcePHP

/-! ## Example inputs, and the properties as the specification words them -/

namespace Clevercloud

/-- A client whose catalog is the given list and whose other calls succeed. -/
def catalogClient (instances : List AvailableInstanceView) : APIClient :=
  { GetAvailableInstances := .ok instances
    GetUser := .ok ()
    AddSelfApplication := fun _ => .ok { Id := "app_1" }
    GetSelfApplicationTagsByAppId := fun _ => .ok []
    GetSelfApplicationByAppId := fun appId => .ok { Id := appId }
    AddApplicationByOrga := fun id _ => .ok { Id := "app_1", OwnerId := id }
    GetApplicationTagsByOrgaAndAppId := fun _ _ => .ok []
    GetApplicationByOrgaAndAppId := fun id appId => .ok { Id := appId, OwnerId := id } }

/-- The catalog of the example: three enabled `php` entries and two entries
that do not count. -/
def exampleCatalog : List AvailableInstanceView :=
  [ { Enabled := true, Variant := { Id := "v1", Slug := "php" }, Version := "1.0" },
    { Enabled := true, Variant := { Id := "v2", Slug := "php" }, Version := "1.9" },
    { Enabled := false, Variant := { Id := "v3", Slug := "php" }, Version := "2.0" },
    { Enabled := true, Variant := { Id := "v4", Slug := "php" }, Version := "1.10" },
    { Enabled := true, Variant := { Id := "v5", Slug := "node" }, Version := "3.0" } ]

/-- A framework in which every list is readable and every state write succeeds. -/
def exampleTfsdk : Tfsdk :=
  { ElementsAs := fun tags => some (tags.Elems.map (fun e => e.Value))
    StateSet := fun _ => true }

/-- A configured resource over the catalog of the example. -/
def exampleResource : resourceApplication :=
  { p := { configured := true, client := catalogClient exampleCatalog } }

/-- A stored state whose organization identifier is present. -/
def stateWithOrga : Application :=
  { ID := { Value := "app_1" }, Type_ := { Value := "php" },
    OrganizationID := { Unknown := false, Null := false, Value := "orga_1" } }

/-- A stored state whose organization identifier is absent (null). -/
def stateWithoutOrga : Application :=
  { ID := { Value := "app_1" }, Type_ := { Value := "php" },
    OrganizationID := { Unknown := false, Null := true, Value := "" } }

/-- A plan whose organization identifier is absent (unknown). -/
def planWithoutOrga : Application :=
  { Name := { Value := "api" }, Type_ := { Value := "php" },
    OrganizationID := { Unknown := true, Null := false, Value := "" } }

/-- A plan whose organization identifier is present. -/
def planWithOrga : Application :=
  { Name := { Value := "api" }, Type_ := { Value := "php" },
    OrganizationID := { Unknown := false, Null := false, Value := "orga_1" } }

/-- The variant of the scenario: default flavor "XS", default build flavor "M",
version "8.2", with three available flavors. -/
def exampleVariant : AvailableInstanceView :=
  { Enabled := true, Variant := { Id := "v-php", Slug := "php" }, Version := "8.2",
    DefaultFlavor := { Name := "XS" }, BuildFlavor := { Name := "M" },
    Flavors := [{ Name := "XS" }, { Name := "M" }, { Name := "XL" }] }

/-- A configured resource whose catalog holds the variant of the scenario. -/
def scenarioResource : resourceApplication :=
  { p := { configured := true, client := catalogClient [exampleVariant] } }

/-- The specification of the scenario: name "api", type "php", separate build
enabled, every other attribute unknown. -/
def scenarioPlan : Application :=
  { Name := { Value := "api" }, Type_ := { Value := "php" },
    Description := { Unknown := true }, Zone := { Unknown := true },
    DeployType := { Unknown := true }, OrganizationID := { Unknown := true },
    Scalability :=
      { MinInstances := { Unknown := true }, MaxInstances := { Unknown := true },
        MinFlavor := { Unknown := true }, MaxFlavor := { Unknown := true },
        MaxAllowedInstances := { Unknown := true } },
    Properties :=
      { Homogeneous := { Unknown := true }, StickySessions := { Unknown := true },
        CancelOnPush := { Unknown := true }, ForceHTTPS := { Unknown := true } },
    Build := { SeparateBuild := { Value := true }, BuildFlavor := { Unknown := true } },
    Favorite := { Unknown := true }, Archived := { Unknown := true } }

/-- The specification of the scenario with separate build explicitly disabled and
the build flavor "XL" chosen. -/
def planBuildFlavorWithoutSeparateBuild : Application :=
  { scenarioPlan with
    Build := { SeparateBuild := { Value := false }, BuildFlavor := { Value := "XL" } } }

/-- The specification of the scenario with the separate-build flag unknown. -/
def planSeparateBuildUnknown : Application :=
  { scenarioPlan with
    Build := { SeparateBuild := { Unknown := true }, BuildFlavor := { Unknown := true } } }

/-- The specification of the scenario with the available flavor "M" chosen as
min flavor and the unavailable flavor "XXL" chosen as max flavor. -/
def planChosenFlavors : Application :=
  { scenarioPlan with
    Scalability :=
      { scenarioPlan.Scalability with
        MinFlavor := { Value := "M" }, MaxFlavor := { Value := "XXL" } } }

/-- The specification of the scenario with force-https and homogeneous set. -/
def planWithFlags (f h : Bool) : Application :=
  { scenarioPlan with
    Properties :=
      { scenarioPlan.Properties with
        ForceHTTPS := { Unknown := false, Null := false, Value := f }
        Homogeneous := { Unknown := false, Null := false, Value := h } } }

/-- The request, when `applicationModelToWannabeApplication` produced one. -/
def WannabeResult.request? : WannabeResult → Option WannabeApplication
  | .ok w => some w
  | _ => none

/-- The attribute is set: neither unknown nor null. -/
def TypesString.isSet (s : TypesString) : Bool := !s.Unknown && !s.Null

/-- The build flavor as the specification words it: the variant's default build
flavor, overridden by the chosen one only if separate build is enabled and the
chosen value is the name of an available flavor. -/
def claimedBuildFlavor (plan : Application) (variant : AvailableInstanceView) : String :=
  if (!plan.Build.SeparateBuild.Unknown && !plan.Build.SeparateBuild.Null
        && plan.Build.SeparateBuild.Value)
      && plan.Build.BuildFlavor.isSet
      && variant.Flavors.any (fun flavor => plan.Build.BuildFlavor.Value == flavor.Name)
  then plan.Build.BuildFlavor.Value
  else variant.BuildFlavor.Name

/-- A remote application with separate build disabled that still reports the
build flavor "M". -/
def remoteWithoutSeparateBuild : ApplicationView :=
  { Id := "app_1", Name := "api", SeparateBuild := false, BuildFlavor := { Name := "M" } }

/-- The specification of the scenario with description, zone, deploy mechanism
and instance counts set. -/
def planAllSet : Application :=
  { scenarioPlan with
    Description := { Value := "public api" }
    Zone := { Value := "rbx" }
    DeployType := { Value := "FTP" }
    Scalability :=
      { scenarioPlan.Scalability with
        MinInstances := { Value := 2 }, MaxInstances := { Value := 4 } } }

/-- The specification of the scenario with description, zone and deploy
mechanism explicitly null. -/
def planAllNull : Application :=
  { scenarioPlan with
    Description := { Null := true }
    Zone := { Null := true }
    DeployType := { Null := true }
    Scalability :=
      { scenarioPlan.Scalability with
        MinInstances := { Null := true }, MaxInstances := { Null := true } } }

/-- The specification of the scenario with two and a half min instances and
2^32 + 1 max instances. -/
def planOddCounts : Application :=
  { scenarioPlan with
    Scalability :=
      { scenarioPlan.Scalability with
        MinInstances := { Value := mkRat 5 2 }, MaxInstances := { Value := 4294967297 } } }

/-- The instance count as the specification words it: the operator's value
when it is set, 1 when it is unset (unknown or null). -/
def claimedInstances (count : TypesNumber) : ℚ :=
  if !count.Unknown && !count.Null then count.Value else 1

/-- The chosen value, when it is not unknown and names an available flavor;
the fallback otherwise.  This is what the flavor loop computes. -/
def flavorOr (chosen : TypesString) (flavors : List FlavorView) (fallback : String) : String :=
  if !chosen.Unknown && flavors.any (fun flavor => chosen.Value == flavor.Name)
  then chosen.Value
  else fallback

end Clevercloud

namespace ResourcePHP

/-- A framework in which lists of known strings are readable, an unknown list
is not, every state write succeeds and the environment is empty. -/
def exampleFramework : Framework :=
  { toEnv := fun _ => []
    ElementsAs := fun items =>
      match items with
      | .value elems => (elems.map TString.ValueString, [])
      | .null => ([], [])
      | .unknown => ([], [⟨true, "Value Conversion Error", "unhandled unknown value"⟩])
    StateSet := fun _ => [] }

/-- The remote application of the example: two hostnames, one of the default
pattern. -/
def exampleApp (appId : String) : CreatAppResponse :=
  { ID := appId, Name := "api", Zone := "par", DeployURL := "git+ssh://example/" ++ appId,
    Instance := { MinInstances := 1, MaxInstances := 2,
                  MinFlavor := { Name := "XS" }, MaxFlavor := { Name := "M" } },
    Vhosts := [{ Fqdn := "app-abc123.cleverapps.io" }, { Fqdn := "www.example.com" }] }

/-- A remote on which every call succeeds. -/
def exampleTmp : Tmp :=
  { GetProductInstance :=
      { payload := some [{ Type_ := "php", Name := "PHP", Version := "8.2",
                           Variant := { ID := "v-php" } }] }
    CreateApp := fun _ req => { payload := some { exampleApp "app_1" with Name := req.Name } }
    UpdateAppEnv := fun _ _ _ => { payload := some () }
    AddAppVHost := fun _ _ _ => { payload := some () }
    GetApp := fun _ appId => { payload := some (exampleApp appId) }
    DeleteApp := fun _ _ => { payload := some () } }

/-- The answer of a remote that does not know the application. -/
def notFoundResponse (α : Type) : Response α :=
  { err := some "404 Not Found", notFound := true, payload := none }

/-- The answer of a remote that fails otherwise. -/
def failedResponse (α : Type) : Response α :=
  { err := some "500 Internal Server Error", notFound := false, payload := none }

/-- A stored state of the PHP resource. -/
def storedState : PHP :=
  { ID := .value "app_1", Name := .value "api", Region := .value "par",
    VHost := .value "app-abc123.cleverapps.io" }

/-- A plan of the PHP resource with two additional hostnames. -/
def examplePlan : PHP :=
  { Name := .value "api", Region := .value "par",
    MinInstanceCount := .value 1, MaxInstanceCount := .value 2,
    SmallestFlavor := .value "XS", BiggestFlavor := .value "M",
    AdditionalVHosts := .value [.value "www.example.com", .value "api.example.com"] }

/-- The resource over a remote on which every call succeeds. -/
def exampleResource : Resource := { cc := exampleTmp, org := "orga_1" }

/-- The resource over a remote that does not know the application on `GetApp`,
answering with a nil payload. -/
def getAppNotFoundResource : Resource :=
  { cc := { exampleTmp with GetApp := fun _ _ => notFoundResponse CreatAppResponse },
    org := "orga_1" }

/-- The resource over a remote that does not know the application on `GetApp`,
answering with an empty payload. -/
def getAppNotFoundEmptyPayloadResource : Resource :=
  { cc := { exampleTmp with
            GetApp := fun _ _ => { notFoundResponse CreatAppResponse with payload := some {} } },
    org := "orga_1" }

/-- The resource over a remote that does not know the application on
`DeleteApp`. -/
def deleteNotFoundResource : Resource :=
  { cc := { exampleTmp with DeleteApp := fun _ _ => notFoundResponse Unit }, org := "orga_1" }

/-- The resource over a remote on which `DeleteApp` fails otherwise. -/
def deleteFailedResource : Resource :=
  { cc := { exampleTmp with DeleteApp := fun _ _ => failedResponse Unit }, org := "orga_1" }

/-- The resource over a remote on which the environment configuration fails. -/
def envFailedResource : Resource :=
  { cc := { exampleTmp with UpdateAppEnv := fun _ _ _ => failedResponse Unit },
    org := "orga_1" }

/-- The resource over a remote on which registering "www.example.com" fails. -/
def vhostFailedResource : Resource :=
  { cc := { exampleTmp with
            AddAppVHost := fun _ _ vhost =>
              if vhost == "www.example.com" then failedResponse Unit else { payload := some () } },
    org := "orga_1" }

/-- A remote application two of whose three hostnames match the default
pattern. -/
def twoDefaultsApp (appId : String) : CreatAppResponse :=
  { exampleApp appId with
    Vhosts := [{ Fqdn := "app-abc123.cleverapps.io" }, { Fqdn := "app-def456.cleverapps.io" },
               { Fqdn := "www.example.com" }] }

/-- The resource over a remote whose application has two hostnames of the
default pattern. -/
def twoDefaultsResource : Resource :=
  { cc := { exampleTmp with GetApp := fun _ appId => { payload := some (twoDefaultsApp appId) } },
    org := "orga_1" }

/-- A remote application with separate build disabled that still reports a
build flavor. -/
def appWithoutSeparateBuild (appId : String) : CreatAppResponse :=
  { exampleApp appId with SeparateBuild := false, BuildFlavor := { Name := "M" } }

/-- The resource over a remote whose application has separate build disabled. -/
def withoutSeparateBuildResource : Resource :=
  { cc := { exampleTmp with
            GetApp := fun _ appId => { payload := some (appWithoutSeparateBuild appId) } },
    org := "orga_1" }

/-- The hostnames an additional-hosts attribute holds: none for a null or
unknown list. -/
def TList.hosts : TList → List String
  | .value elems => elems.map TString.ValueString
  | _ => []

end ResourcePHP

/-! ## The catalog resolver -/

namespace Clevercloud

theorem lessChars_iff_lt : ∀ (a b : List Char), lessChars a b = true ↔ a < b
  | [], [] => by
    simp only [lessChars, Bool.false_eq_true, false_iff]
    intro h
    cases h
  | _ :: _, [] => by
    simp only [lessChars, Bool.false_eq_true, false_iff]
    intro h
    cases h
  | [], b :: bs => by
    simp only [lessChars, true_iff]
    exact List.Lex.nil
  | a :: as, b :: bs => by
    unfold lessChars
    by_cases h1 : a.toNat < b.toNat
    · simp only [h1, if_true, true_iff]
      exact List.Lex.rel h1
    · by_cases h2 : b.toNat < a.toNat
      · simp only [h1, h2, if_true, if_false, Bool.false_eq_true, false_iff]
        intro h
        cases h with
        | cons _ => exact absurd h2 (lt_irrefl _)
        | rel h => exact h1 h
      · simp only [h1, h2, if_false]
        have hab : a = b := by
          apply Char.ext
          apply UInt32.ext
          show a.toNat = b.toNat
          omega
        subst hab
        rw [lessChars_iff_lt as bs]
        constructor
        · intro h
          exact List.Lex.cons h
        · intro h
          cases h with
          | cons h => exact h
          | rel h => exact absurd h h1

/-- The comparison of the embedding is the lexicographic order on strings. -/
theorem stringLess_iff_lt (a b : String) : stringLess a b = true ↔ a < b := by
  rw [String.lt_iff_toList_lt]
  exact lessChars_iff_lt a.toList b.toList

theorem stringLE_iff_le (a b : String) : stringLE a b ↔ a ≤ b := by
  unfold stringLE
  rw [← not_lt, ← stringLess_iff_lt]
  simp

instance stringLE.isTotal : IsTotal String stringLE :=
  ⟨fun a b => by
    rw [stringLE_iff_le, stringLE_iff_le]
    exact le_total a b⟩

instance stringLE.isTrans : IsTrans String stringLE :=
  ⟨fun a b c => by
    rw [stringLE_iff_le, stringLE_iff_le, stringLE_iff_le]
    exact le_trans⟩

/-- The last element of a sorted slice is above every element. -/
theorem sortStrings_getLast_max (a : List String) (v : String)
    (h : (sortStrings a).getLast? = some v) : v ∈ a ∧ ∀ x ∈ a, x ≤ v := by
  obtain ⟨ys, hys⟩ := List.getLast?_eq_some_iff.mp h
  have hsorted : List.Sorted stringLE (sortStrings a) := List.sorted_insertionSort stringLE a
  have hmem : ∀ x, x ∈ sortStrings a ↔ x ∈ a := fun x => List.mem_insertionSort stringLE
  rw [hys] at hsorted hmem
  refine ⟨(hmem v).mp (by simp), fun x hx => ?_⟩
  have hx2 := (hmem x).mpr hx
  rw [List.mem_append] at hx2
  rcases hx2 with hx2 | hx2
  · have := (List.pairwise_append.mp hsorted).2.2 x hx2 v (by simp)
    exact (stringLE_iff_le x v).mp this
  · simp only [List.mem_singleton] at hx2
    rw [hx2]

theorem sortStrings_getLast_none (a : List String)
    (h : (sortStrings a).getLast? = none) : a = [] := by
  rw [List.getLast?_eq_none_iff] at h
  have hlen : (sortStrings a).length = a.length := List.length_insertionSort stringLE a
  rw [h] at hlen
  exact List.length_eq_zero.mp hlen.symm

/-- The selection loop returns an element with the wanted version when there is
one. -/
theorem foldl_pick (v : String) :
    ∀ (l : List AvailableInstanceView) (init : AvailableInstanceView),
      (∃ x ∈ l, x.Version = v) →
      (l.foldl (fun latestInstance inst => if inst.Version == v then inst else latestInstance)
          init) ∈ l ∧
      (l.foldl (fun latestInstance inst => if inst.Version == v then inst else latestInstance)
          init).Version = v := by
  intro l
  induction l using List.reverseRecOn with
  | nil => intro init h; simp at h
  | append_singleton xs x ih =>
    intro init h
    rw [List.foldl_append]
    simp only [List.foldl_cons, List.foldl_nil]
    by_cases hx : x.Version = v
    · simp [hx]
    · have hx2 : (x.Version == v) = false := by simpa using hx
      simp only [hx2, Bool.false_eq_true, if_false]
      obtain ⟨y, hy, hyv⟩ := h
      rw [List.mem_append] at hy
      rcases hy with hy | hy
      · have := ih init ⟨y, hy, hyv⟩
        exact ⟨List.mem_append_left _ this.1, this.2⟩
      · simp only [List.mem_singleton] at hy
        exact absurd (hy ▸ hyv) hx

/-- C1: when the catalog has an enabled entry with the requested slug,
`getInstanceByType` returns an entry of the catalog that is enabled, has that
slug, and whose version is greater than or equal to, in lexicographic string
order, the version of every enabled entry with that slug. -/
theorem getInstanceByType_latest (cc : APIClient) (instances : List AvailableInstanceView)
    (instanceType : String) (hcat : cc.GetAvailableInstances = .ok instances)
    (h : ∃ i ∈ instances, i.Enabled = true ∧ i.Variant.Slug = instanceType) :
    ∃ r, getInstanceByType cc instanceType = .ok r ∧ r ∈ instances ∧ r.Enabled = true ∧
      r.Variant.Slug = instanceType ∧
      ∀ j ∈ instances, j.Enabled = true → j.Variant.Slug = instanceType →
        j.Version ≤ r.Version := by
  have hmemM : ∀ x : AvailableInstanceView,
      x ∈ (instances.filter (fun inst => inst.Enabled)).filter
          (fun inst => inst.Variant.Slug == instanceType) ↔
        x ∈ instances ∧ x.Enabled = true ∧ x.Variant.Slug = instanceType := by
    intro x
    simp only [List.mem_filter, beq_iff_eq]
    tauto
  unfold getInstanceByType
  rw [hcat]
  simp only
  cases hlast : (sortStrings
      (((instances.filter (fun inst => inst.Enabled)).filter
        (fun inst => inst.Variant.Slug == instanceType)).map (fun inst => inst.Version))).getLast?
    with
  | none =>
    exfalso
    have hnil := sortStrings_getLast_none _ hlast
    obtain ⟨i, hi, hen, hslug⟩ := h
    have him := (hmemM i).mpr ⟨hi, hen, hslug⟩
    rw [List.map_eq_nil_iff] at hnil
    rw [hnil] at him
    simp at him
  | some v =>
    obtain ⟨hv, hmax⟩ := sortStrings_getLast_max _ v hlast
    rw [List.mem_map] at hv
    obtain ⟨x, hx, hxv⟩ := hv
    obtain ⟨hin, hver⟩ := foldl_pick v _ ({} : AvailableInstanceView) ⟨x, hx, hxv⟩
    refine ⟨_, rfl, ?_, ?_, ?_, ?_⟩
    · exact ((hmemM _).mp hin).1
    · exact ((hmemM _).mp hin).2.1
    · exact ((hmemM _).mp hin).2.2
    · intro j hj hen hslug
      rw [hver]
      exact hmax j.Version (List.mem_map.mpr ⟨j, (hmemM j).mpr ⟨hj, hen, hslug⟩, rfl⟩)

/-- C1, at the catalog of the example: among the versions "1.0", "1.9" and
"1.10" the entry with version "1.9" is returned. -/
theorem getInstanceByType_latest_witness :
    getInstanceByType (catalogClient exampleCatalog) "php"
        = .ok { Enabled := true, Variant := { Id := "v2", Slug := "php" }, Version := "1.9" } ∧
      ∃ r, getInstanceByType (catalogClient exampleCatalog) "php" = .ok r ∧
        r ∈ exampleCatalog ∧ r.Enabled = true ∧ r.Variant.Slug = "php" ∧
        ∀ j ∈ exampleCatalog, j.Enabled = true → j.Variant.Slug = "php" →
          j.Version ≤ r.Version :=
  ⟨by decide,
    getInstanceByType_latest (catalogClient exampleCatalog) exampleCatalog "php" rfl
      ⟨{ Enabled := true, Variant := { Id := "v1", Slug := "php" }, Version := "1.0" },
        by decide, rfl, rfl⟩⟩

/-- C2: on a catalog without an enabled entry of the requested slug (the empty
catalog, a catalog whose only matching entry is disabled, a catalog of other
slugs) `getInstanceByType` does not return an error: it indexes the empty slice
of versions at `len - 1` and panics. -/
theorem getInstanceByType_no_match_panics :
    getInstanceByType (catalogClient []) "php"
        = .panic "runtime error: index out of range [-1]" ∧
      getInstanceByType
          (catalogClient
            [{ Enabled := false, Variant := { Id := "v3", Slug := "php" }, Version := "2.0" }])
          "php"
        = .panic "runtime error: index out of range [-1]" ∧
      getInstanceByType
          (catalogClient
            [{ Enabled := true, Variant := { Id := "v5", Slug := "node" }, Version := "3.0" }])
          "php"
        = .panic "runtime error: index out of range [-1]" := by
  decide

/-! ## Owner routing of the generic resource -/

/-- C3: `Read` routes the other way round.  With the organization identifier
present ("orga_1") it probes the caller identity and reads through the
self-scoped surface; with the identifier absent (null) it reads through the
organization-scoped surface with the empty identifier.  `Create`, on the same
two kinds of input, routes as the claim says. -/
theorem Read_routes_inverted :
    (exampleResource.Read exampleTfsdk (some stateWithOrga)).Calls
        = [.GetUser, .GetSelfApplicationByAppId "app_1",
            .GetSelfApplicationTagsByAppId "app_1"] ∧
      (exampleResource.Read exampleTfsdk (some stateWithoutOrga)).Calls
        = [.GetApplicationByOrgaAndAppId "" "app_1",
            .GetApplicationTagsByOrgaAndAppId "" "app_1"] ∧
      (exampleResource.Create exampleTfsdk (some planWithoutOrga)).Calls.map ApiCall.isSelf
        = [false, true, true, true] ∧
      (exampleResource.Create exampleTfsdk (some planWithOrga)).Calls.map (ApiCall.isOrga "orga_1")
        = [false, true, true] := by
  decide

/-! ## The specification normaliser -/

theorem flavorOr_single (chosen : TypesString) (flavor : FlavorView) (fallback : String) :
    flavorOr chosen [flavor] fallback
      = if (!chosen.Unknown && chosen.Value == flavor.Name) = true then flavor.Name
        else fallback := by
  unfold flavorOr
  simp only [List.any_cons, List.any_nil, Bool.or_false]
  by_cases h : (!chosen.Unknown && chosen.Value == flavor.Name) = true
  · rw [if_pos h, if_pos h]
    simp only [Bool.and_eq_true, beq_iff_eq] at h
    exact h.2
  · rw [if_neg h, if_neg h]

theorem flavorStep_fields (plan : Application) (w : WannabeApplication) (flavor : FlavorView) :
    (flavorStep plan w flavor).MinFlavor
        = flavorOr plan.Scalability.MinFlavor [flavor] w.MinFlavor ∧
      (flavorStep plan w flavor).MaxFlavor
        = flavorOr plan.Scalability.MaxFlavor [flavor] w.MaxFlavor ∧
      (flavorStep plan w flavor).BuildFlavor
        = flavorOr plan.Build.BuildFlavor [flavor] w.BuildFlavor ∧
      (flavorStep plan w flavor).InstanceVersion = w.InstanceVersion ∧
      (flavorStep plan w flavor).Homogeneous = w.Homogeneous ∧
      (flavorStep plan w flavor).ForceHttps = w.ForceHttps := by
  rw [flavorOr_single, flavorOr_single, flavorOr_single]
  unfold flavorStep
  by_cases h1 : (!plan.Scalability.MinFlavor.Unknown
      && plan.Scalability.MinFlavor.Value == flavor.Name) = true <;>
  by_cases h2 : (!plan.Scalability.MaxFlavor.Unknown
      && plan.Scalability.MaxFlavor.Value == flavor.Name) = true <;>
  by_cases h3 : (!plan.Build.BuildFlavor.Unknown
      && plan.Build.BuildFlavor.Value == flavor.Name) = true <;>
  simp only [h1, h2, h3, Bool.false_eq_true, if_true, if_false, and_self]

theorem flavorOr_cons (chosen : TypesString) (flavor : FlavorView) (flavors : List FlavorView)
    (fallback : String) :
    flavorOr chosen flavors (flavorOr chosen [flavor] fallback)
      = flavorOr chosen (flavor :: flavors) fallback := by
  unfold flavorOr
  simp only [List.any_cons, List.any_nil, Bool.or_false]
  by_cases h1 : chosen.Unknown = true <;>
  by_cases h2 : (chosen.Value == flavor.Name) = true <;>
  by_cases h3 : (flavors.any fun flavor => chosen.Value == flavor.Name) = true <;>
  simp [h1, h2, h3]

/-- What the flavor loop leaves in the request. -/
theorem foldl_flavorStep (plan : Application) :
    ∀ (flavors : List FlavorView) (w : WannabeApplication),
      (flavors.foldl (flavorStep plan) w).MinFlavor
          = flavorOr plan.Scalability.MinFlavor flavors w.MinFlavor ∧
        (flavors.foldl (flavorStep plan) w).MaxFlavor
          = flavorOr plan.Scalability.MaxFlavor flavors w.MaxFlavor ∧
        (flavors.foldl (flavorStep plan) w).BuildFlavor
          = flavorOr plan.Build.BuildFlavor flavors w.BuildFlavor ∧
        (flavors.foldl (flavorStep plan) w).InstanceVersion = w.InstanceVersion ∧
        (flavors.foldl (flavorStep plan) w).Homogeneous = w.Homogeneous ∧
        (flavors.foldl (flavorStep plan) w).ForceHttps = w.ForceHttps := by
  intro flavors
  induction flavors with
  | nil =>
    intro w
    simp [flavorOr]
  | cons flavor rest ih =>
    intro w
    obtain ⟨s1, s2, s3, s4, s5, s6⟩ := flavorStep_fields plan w flavor
    obtain ⟨i1, i2, i3, i4, i5, i6⟩ := ih (flavorStep plan w flavor)
    rw [List.foldl_cons, i1, i2, i3, i4, i5, i6, s1, s2, s3, s4, s5, s6]
    rw [flavorOr_cons, flavorOr_cons, flavorOr_cons]
    exact ⟨rfl, rfl, rfl, rfl, rfl, rfl⟩

theorem wannabeBase_fields (plan : Application) (variant : AvailableInstanceView) :
    (wannabeBase plan variant).MinFlavor = variant.DefaultFlavor.Name ∧
      (wannabeBase plan variant).MaxFlavor = variant.DefaultFlavor.Name ∧
      (wannabeBase plan variant).BuildFlavor
        = (if plan.Build.SeparateBuild.Unknown then "" else variant.BuildFlavor.Name) ∧
      (wannabeBase plan variant).InstanceVersion = variant.Version ∧
      (wannabeBase plan variant).Homogeneous = false ∧
      (wannabeBase plan variant).ForceHttps = "" := by
  unfold wannabeBase
  by_cases h1 : plan.Build.SeparateBuild.Unknown = true <;>
  simp only [h1, Bool.not_true, Bool.not_false, Bool.false_eq_true, if_true, if_false, and_self]

theorem wannabeFlags_fields (plan : Application) (w : WannabeApplication) :
    (wannabeFlags plan w).MinFlavor = w.MinFlavor ∧
      (wannabeFlags plan w).MaxFlavor = w.MaxFlavor ∧
      (wannabeFlags plan w).BuildFlavor = w.BuildFlavor ∧
      (wannabeFlags plan w).InstanceVersion = w.InstanceVersion ∧
      (wannabeFlags plan w).Homogeneous
        = (if plan.Properties.Homogeneous.Unknown then w.Homogeneous
            else !plan.Properties.Homogeneous.Value) ∧
      (wannabeFlags plan w).ForceHttps
        = (if plan.Properties.ForceHTTPS.Unknown then w.ForceHttps
            else plan.attributeForceHttpsToString) := by
  unfold wannabeFlags
  by_cases h2 : plan.Properties.Homogeneous.Unknown = true <;>
  by_cases h3 : plan.Properties.StickySessions.Unknown = true <;>
  by_cases h4 : plan.Properties.CancelOnPush.Unknown = true <;>
  by_cases h5 : plan.Properties.ForceHTTPS.Unknown = true <;>
  by_cases h6 : plan.Favorite.Unknown = true <;>
  by_cases h7 : plan.Archived.Unknown = true <;>
  simp only [h2, h3, h4, h5, h6, h7, Bool.not_true, Bool.not_false, Bool.false_eq_true,
    if_true, if_false, and_self]

/-- The fields of the request built from a resolved variant. -/
theorem wannabeOfInstance_fields (plan : Application) (variant : AvailableInstanceView) :
    (wannabeOfInstance plan variant).MinFlavor
        = flavorOr plan.Scalability.MinFlavor variant.Flavors variant.DefaultFlavor.Name ∧
      (wannabeOfInstance plan variant).MaxFlavor
        = flavorOr plan.Scalability.MaxFlavor variant.Flavors variant.DefaultFlavor.Name ∧
      (wannabeOfInstance plan variant).BuildFlavor
        = flavorOr plan.Build.BuildFlavor variant.Flavors
            (if plan.Build.SeparateBuild.Unknown then "" else variant.BuildFlavor.Name) ∧
      (wannabeOfInstance plan variant).InstanceVersion = variant.Version ∧
      (wannabeOfInstance plan variant).Homogeneous
        = (if plan.Properties.Homogeneous.Unknown then false
            else !plan.Properties.Homogeneous.Value) ∧
      (wannabeOfInstance plan variant).ForceHttps
        = (if plan.Properties.ForceHTTPS.Unknown then ""
            else plan.attributeForceHttpsToString) := by
  unfold wannabeOfInstance
  obtain ⟨f1, f2, f3, f4, f5, f6⟩ :=
    wannabeFlags_fields plan (variant.Flavors.foldl (flavorStep plan) (wannabeBase plan variant))
  obtain ⟨l1, l2, l3, l4, l5, l6⟩ :=
    foldl_flavorStep plan variant.Flavors (wannabeBase plan variant)
  obtain ⟨b1, b2, b3, b4, b5, b6⟩ := wannabeBase_fields plan variant
  rw [f1, f2, f3, f4, f5, f6, l1, l2, l3, l4, l5, l6, b1, b2, b3, b4, b5, b6]
  exact ⟨rfl, rfl, rfl, rfl, rfl, rfl⟩

/-- When the catalog lookup resolves a variant and the tags are readable, the
normaliser produces the request built from that variant, with the tags. -/
theorem applicationModelToWannabeApplication_ok (r : resourceApplication) (tf : Tfsdk)
    (plan : Application) (variant : AvailableInstanceView) (tags : List String)
    (hres : getInstanceByType r.p.client plan.Type_.Value = .ok variant)
    (htags : tf.ElementsAs plan.Tags = some tags) :
    r.applicationModelToWannabeApplication tf plan
      = .ok { wannabeOfInstance plan variant with Tags := tags } := by
  unfold resourceApplication.applicationModelToWannabeApplication
  rw [hres]
  simp only [htags]

/-- C7, as stated, fails: with separate build explicitly disabled and the
available flavor "XL" chosen as build flavor the request carries "XL", where the
claim gives the variant's default "M"; and with the separate-build flag unknown
and no build flavor chosen the request carries the empty string, where the claim
gives "M". -/
theorem buildFlavor_claim_fails :
    ((scenarioResource.applicationModelToWannabeApplication exampleTfsdk
          planBuildFlavorWithoutSeparateBuild).request?.map (fun w => w.BuildFlavor)
        = some "XL" ∧
      claimedBuildFlavor planBuildFlavorWithoutSeparateBuild exampleVariant = "M") ∧
    ((scenarioResource.applicationModelToWannabeApplication exampleTfsdk
          planSeparateBuildUnknown).request?.map (fun w => w.BuildFlavor)
        = some "" ∧
      claimedBuildFlavor planSeparateBuildUnknown exampleVariant = "M") := by
  decide

/-- C7, amended: the build flavor of the request is the operator's chosen build
flavor when that value is not unknown and is the name of one of the variant's
available flavors, whatever the separate-build flag; otherwise it is the
variant's default build flavor name when the separate-build flag is not unknown,
and the empty string when it is unknown. -/
theorem buildFlavor_of_request (r : resourceApplication) (tf : Tfsdk)
    (plan : Application) (variant : AvailableInstanceView) (tags : List String)
    (hres : getInstanceByType r.p.client plan.Type_.Value = .ok variant)
    (htags : tf.ElementsAs plan.Tags = some tags) :
    ∃ w, r.applicationModelToWannabeApplication tf plan = .ok w ∧
      w.BuildFlavor =
        if plan.Build.BuildFlavor.Unknown = false ∧
            ∃ flavor ∈ variant.Flavors, plan.Build.BuildFlavor.Value = flavor.Name
        then plan.Build.BuildFlavor.Value
        else if plan.Build.SeparateBuild.Unknown = false then variant.BuildFlavor.Name
        else "" := by
  refine ⟨_, applicationModelToWannabeApplication_ok r tf plan variant tags hres htags, ?_⟩
  show (wannabeOfInstance plan variant).BuildFlavor = _
  rw [(wannabeOfInstance_fields plan variant).2.2.1]
  unfold flavorOr
  by_cases h1 : plan.Build.BuildFlavor.Unknown = true <;>
  by_cases h2 : plan.Build.SeparateBuild.Unknown = true <;>
  by_cases h3 : ∃ flavor ∈ variant.Flavors, plan.Build.BuildFlavor.Value = flavor.Name <;>
  simp [h1, h2, h3]

/-- C7, amended, at the scenario: separate build enabled, no build flavor
chosen, default build flavor "M": the request carries "M". -/
theorem buildFlavor_of_request_witness :
    (scenarioResource.applicationModelToWannabeApplication exampleTfsdk scenarioPlan).request?.map
        (fun w => w.BuildFlavor) = some "M" ∧
      ∃ w, scenarioResource.applicationModelToWannabeApplication exampleTfsdk scenarioPlan
          = .ok w ∧
        w.BuildFlavor =
          if scenarioPlan.Build.BuildFlavor.Unknown = false ∧
              ∃ flavor ∈ exampleVariant.Flavors, scenarioPlan.Build.BuildFlavor.Value = flavor.Name
          then scenarioPlan.Build.BuildFlavor.Value
          else if scenarioPlan.Build.SeparateBuild.Unknown = false
            then exampleVariant.BuildFlavor.Name
          else "" :=
  ⟨by decide,
    buildFlavor_of_request scenarioResource exampleTfsdk scenarioPlan exampleVariant []
      (by decide) (by decide)⟩

/-- On a flavor attribute that is not null, or that is null with the empty
stored value while no available flavor has the empty name, the flavor loop
yields the chosen value exactly when it is set and names an available flavor. -/
theorem flavorOr_of_set (chosen : TypesString) (flavors : List FlavorView) (fallback : String)
    (h : chosen.Null = false ∨ (chosen.Value = "" ∧ ∀ flavor ∈ flavors, flavor.Name ≠ "")) :
    flavorOr chosen flavors fallback =
      if (chosen.Unknown = false ∧ chosen.Null = false) ∧
          ∃ flavor ∈ flavors, chosen.Value = flavor.Name
      then chosen.Value
      else fallback := by
  unfold flavorOr
  by_cases hu : chosen.Unknown = true
  · simp [hu]
  · by_cases he : ∃ flavor ∈ flavors, chosen.Value = flavor.Name
    · have hany : (flavors.any fun flavor => chosen.Value == flavor.Name) = true := by
        rw [List.any_eq_true]
        obtain ⟨flavor, hmem, heq⟩ := he
        exact ⟨flavor, hmem, by simpa using heq⟩
      have hn : chosen.Null = false := by
        rcases h with h | ⟨hv, hne⟩
        · exact h
        · obtain ⟨flavor, hmem, heq⟩ := he
          exact absurd (heq.symm.trans hv) (hne flavor hmem)
      simp [hu, hn, hany, he]
    · have hany : (flavors.any fun flavor => chosen.Value == flavor.Name) = false := by
        rw [List.any_eq_false]
        intro flavor hmem heq
        exact he ⟨flavor, hmem, by simpa using heq⟩
      simp [hany, he]

/-- C8: for a specification whose min and max flavor attributes are unknown or
known (not null, as an optional computed attribute reaches `Create`), or null
with the empty stored value against a variant without an empty flavor name, the
min (respectively max) flavor of the request is the operator's chosen name if
that name is set and is the name of one of the variant's available flavors, and
the variant's default flavor name otherwise; the instance version of the
request is the variant's version. -/
theorem flavors_of_request (r : resourceApplication) (tf : Tfsdk)
    (plan : Application) (variant : AvailableInstanceView) (tags : List String)
    (hres : getInstanceByType r.p.client plan.Type_.Value = .ok variant)
    (htags : tf.ElementsAs plan.Tags = some tags)
    (hmin : plan.Scalability.MinFlavor.Null = false ∨
      (plan.Scalability.MinFlavor.Value = "" ∧ ∀ flavor ∈ variant.Flavors, flavor.Name ≠ ""))
    (hmax : plan.Scalability.MaxFlavor.Null = false ∨
      (plan.Scalability.MaxFlavor.Value = "" ∧ ∀ flavor ∈ variant.Flavors, flavor.Name ≠ "")) :
    ∃ w, r.applicationModelToWannabeApplication tf plan = .ok w ∧
      (w.MinFlavor =
        if (plan.Scalability.MinFlavor.Unknown = false ∧ plan.Scalability.MinFlavor.Null = false) ∧
            ∃ flavor ∈ variant.Flavors, plan.Scalability.MinFlavor.Value = flavor.Name
        then plan.Scalability.MinFlavor.Value
        else variant.DefaultFlavor.Name) ∧
      (w.MaxFlavor =
        if (plan.Scalability.MaxFlavor.Unknown = false ∧ plan.Scalability.MaxFlavor.Null = false) ∧
            ∃ flavor ∈ variant.Flavors, plan.Scalability.MaxFlavor.Value = flavor.Name
        then plan.Scalability.MaxFlavor.Value
        else variant.DefaultFlavor.Name) ∧
      w.InstanceVersion = variant.Version := by
  refine ⟨_, applicationModelToWannabeApplication_ok r tf plan variant tags hres htags,
    ?_, ?_, ?_⟩
  · show (wannabeOfInstance plan variant).MinFlavor = _
    rw [(wannabeOfInstance_fields plan variant).1]
    exact flavorOr_of_set _ _ _ hmin
  · show (wannabeOfInstance plan variant).MaxFlavor = _
    rw [(wannabeOfInstance_fields plan variant).2.1]
    exact flavorOr_of_set _ _ _ hmax
  · exact (wannabeOfInstance_fields plan variant).2.2.2.1

/-- C8, at two specifications: the scenario (name "api", type "php", no flavor
chosen, default flavor "XS", version "8.2") gives min flavor "XS", max flavor
"XS" and instance version "8.2"; with the available flavor "M" chosen as min and
the unavailable "XXL" as max it gives min "M" and max "XS". -/
theorem flavors_of_request_witness :
    ((scenarioResource.applicationModelToWannabeApplication exampleTfsdk scenarioPlan).request?.map
        (fun w => (w.MinFlavor, w.MaxFlavor, w.InstanceVersion)) = some ("XS", "XS", "8.2") ∧
    (scenarioResource.applicationModelToWannabeApplication exampleTfsdk planChosenFlavors).request?.map
        (fun w => (w.MinFlavor, w.MaxFlavor, w.InstanceVersion)) = some ("M", "XS", "8.2")) ∧
      ∃ w, scenarioResource.applicationModelToWannabeApplication exampleTfsdk planChosenFlavors
          = .ok w ∧
        (w.MinFlavor =
          if (planChosenFlavors.Scalability.MinFlavor.Unknown = false
                ∧ planChosenFlavors.Scalability.MinFlavor.Null = false) ∧
              ∃ flavor ∈ exampleVariant.Flavors,
                planChosenFlavors.Scalability.MinFlavor.Value = flavor.Name
          then planChosenFlavors.Scalability.MinFlavor.Value
          else exampleVariant.DefaultFlavor.Name) ∧
        (w.MaxFlavor =
          if (planChosenFlavors.Scalability.MaxFlavor.Unknown = false
                ∧ planChosenFlavors.Scalability.MaxFlavor.Null = false) ∧
              ∃ flavor ∈ exampleVariant.Flavors,
                planChosenFlavors.Scalability.MaxFlavor.Value = flavor.Name
          then planChosenFlavors.Scalability.MaxFlavor.Value
          else exampleVariant.DefaultFlavor.Name) ∧
        w.InstanceVersion = exampleVariant.Version :=
  ⟨⟨by decide, by decide⟩,
    flavors_of_request scenarioResource exampleTfsdk planChosenFlavors exampleVariant []
      (by decide) (by decide) (Or.inl rfl) (Or.inl rfl)⟩

/-! ## Flag encodings -/

/-- C9: for a specification whose force-https and homogeneous flags are
explicitly set to `f` and `h`, the request carries "ENABLED" or "DISABLED"
according to `f` and the negation of `h`, and translating any remote application
that carries these two values gives back force_https `f` and homogeneous `h`. -/
theorem flags_roundtrip (r : resourceApplication) (tf : Tfsdk)
    (plan : Application) (variant : AvailableInstanceView) (tags : List String) (f h : Bool)
    (hres : getInstanceByType r.p.client plan.Type_.Value = .ok variant)
    (htags : tf.ElementsAs plan.Tags = some tags)
    (hf : plan.Properties.ForceHTTPS = { Unknown := false, Null := false, Value := f })
    (hh : plan.Properties.Homogeneous = { Unknown := false, Null := false, Value := h }) :
    ∃ w, r.applicationModelToWannabeApplication tf plan = .ok w ∧
      w.ForceHttps = (if f then "ENABLED" else "DISABLED") ∧
      w.Homogeneous = (!h) ∧
      ∀ remote : ApplicationView,
        (applicationViewToApplicationModel
            { remote with ForceHttps := w.ForceHttps, Homogeneous := w.Homogeneous }).Properties.ForceHTTPS
          = { Unknown := false, Null := false, Value := f } ∧
        (applicationViewToApplicationModel
            { remote with ForceHttps := w.ForceHttps, Homogeneous := w.Homogeneous }).Properties.Homogeneous
          = { Unknown := false, Null := false, Value := h } := by
  have hF : (wannabeOfInstance plan variant).ForceHttps = (if f then "ENABLED" else "DISABLED") := by
    rw [(wannabeOfInstance_fields plan variant).2.2.2.2.2]
    simp [Application.attributeForceHttpsToString, hf]
  have hH : (wannabeOfInstance plan variant).Homogeneous = (!h) := by
    rw [(wannabeOfInstance_fields plan variant).2.2.2.2.1]
    simp [hh]
  refine ⟨_, applicationModelToWannabeApplication_ok r tf plan variant tags hres htags,
    hF, hH, ?_⟩
  intro remote
  show (_ : TypesBool) = _ ∧ (_ : TypesBool) = _
  simp only [applicationViewToApplicationModel, hF, hH, forceHttpsToBool]
  cases f <;> cases h <;> simp

/-- C9, at the scenario with both flags set to true: "ENABLED" and false are
sent, true and true are read back. -/
theorem flags_roundtrip_witness :
    ∃ w, scenarioResource.applicationModelToWannabeApplication exampleTfsdk
          (planWithFlags true true) = .ok w ∧
      w.ForceHttps = (if true then "ENABLED" else "DISABLED") ∧
      w.Homogeneous = (!true) ∧
      ∀ remote : ApplicationView,
        (applicationViewToApplicationModel
            { remote with ForceHttps := w.ForceHttps, Homogeneous := w.Homogeneous }).Properties.ForceHTTPS
          = { Unknown := false, Null := false, Value := true } ∧
        (applicationViewToApplicationModel
            { remote with ForceHttps := w.ForceHttps, Homogeneous := w.Homogeneous }).Properties.Homogeneous
          = { Unknown := false, Null := false, Value := true } :=
  flags_roundtrip scenarioResource exampleTfsdk (planWithFlags true true) exampleVariant []
    true true (by decide) (by decide) rfl rfl

end Clevercloud

/-! ## Lifecycle of the PHP resource -/

namespace ResourcePHP

/-- C4: when `GetApp` reports not-found, `Read` removes the resource but goes
on: it adds the error diagnostic "failed to get app" and dereferences the
payload.  With a nil payload it panics; with a payload it writes a state built
from that payload, so that the resource is present again. -/
theorem Read_notFound_goes_on :
    Read getAppNotFoundResource exampleFramework storedState []
        = { Diagnostics := [⟨true, "failed to get app", "404 Not Found"⟩]
            State := none
            Calls := [.GetApp "orga_1" "app_1"]
            Panicked := true } ∧
      Read getAppNotFoundEmptyPayloadResource exampleFramework storedState []
        = { Diagnostics := [⟨true, "failed to get app", "404 Not Found"⟩]
            State := some { ID := .value "app_1", Name := .value "", Description := .value "",
                            MinInstanceCount := .value 0, MaxInstanceCount := .value 0,
                            SmallestFlavor := .value "", BiggestFlavor := .value "",
                            BuildFlavor := .null, Region := .value "", DeployURL := .value "",
                            VHost := .null, AdditionalVHosts := .null }
            Calls := [.GetApp "orga_1" "app_1"]
            Panicked := false } := by
  decide

/-- C5: once the stored state is read, `Delete` makes one `DeleteApp` call and:
on a not-found answer it removes the resource and adds no diagnostic; on an
answer without error it removes the resource and adds no diagnostic; on any
other error it adds one error diagnostic and leaves the state as it was. -/
theorem Delete_outcome (r : Resource) (state : PHP) (stateDiags : List Diagnostic)
    (hdiags : HasError stateDiags = false) :
    Delete r state stateDiags =
      if (r.cc.DeleteApp r.org state.ID.ValueString).IsNotFoundError = true then
        { Diagnostics := stateDiags, State := none,
          Calls := [.DeleteApp r.org state.ID.ValueString], Panicked := false }
      else if (r.cc.DeleteApp r.org state.ID.ValueString).HasError = true then
        { Diagnostics := stateDiags ++
            [⟨true, "failed to delete app",
              (r.cc.DeleteApp r.org state.ID.ValueString).ErrorText⟩],
          State := some state,
          Calls := [.DeleteApp r.org state.ID.ValueString], Panicked := false }
      else
        { Diagnostics := stateDiags, State := none,
          Calls := [.DeleteApp r.org state.ID.ValueString], Panicked := false } := by
  unfold Delete
  simp only [hdiags, Bool.false_eq_true, if_false]
  by_cases h1 : (r.cc.DeleteApp r.org state.ID.ValueString).IsNotFoundError = true
  · simp [h1, HandlerResponse.RemoveResource, HandlerResponse.call]
  · by_cases h2 : (r.cc.DeleteApp r.org state.ID.ValueString).HasError = true
    · simp [h1, h2, HandlerResponse.AddError, HandlerResponse.call]
    · simp [h1, h2, HandlerResponse.RemoveResource, HandlerResponse.call]

/-- C5, at three remotes: one that reports not-found, one that succeeds, one
that fails with another error. -/
theorem Delete_outcome_witness :
    Delete deleteNotFoundResource storedState []
        = { Diagnostics := [], State := none,
            Calls := [.DeleteApp "orga_1" "app_1"], Panicked := false } ∧
      Delete exampleResource storedState []
        = { Diagnostics := [], State := none,
            Calls := [.DeleteApp "orga_1" "app_1"], Panicked := false } ∧
      Delete deleteFailedResource storedState []
        = { Diagnostics := [⟨true, "failed to delete app", "500 Internal Server Error"⟩],
            State := some storedState,
            Calls := [.DeleteApp "orga_1" "app_1"], Panicked := false } :=
  ⟨(Delete_outcome deleteNotFoundResource storedState [] rfl).trans (by decide),
    (Delete_outcome exampleResource storedState [] rfl).trans (by decide),
    (Delete_outcome deleteFailedResource storedState [] rfl).trans (by decide)⟩

/-- C6: when the environment configuration fails after a successful creation,
`Create` adds its diagnostic and then returns at the next error check: no
`AddAppVHost` call is made for the two desired hostnames.  On the same plan, a
remote whose environment configuration succeeds gets both `AddAppVHost` calls,
also when the first of them fails. -/
theorem Create_env_failure_skips_vhosts :
    ((Create envFailedResource exampleFramework examplePlan []).Calls.map
          (fun c => match c with
            | .AddAppVHost _ _ vhost => some vhost
            | _ => none)
        = [none, none, none] ∧
      (Create envFailedResource exampleFramework examplePlan []).Diagnostics
        = [⟨true, "failed to configure application", "500 Internal Server Error"⟩]) ∧
    ((Create vhostFailedResource exampleFramework examplePlan []).Calls.map
          (fun c => match c with
            | .AddAppVHost _ _ vhost => some vhost
            | _ => none)
        = [none, none, none, some "www.example.com", some "api.example.com"] ∧
      (Create vhostFailedResource exampleFramework examplePlan []).Diagnostics
        = [⟨true, "failed to add additional vhost", "500 Internal Server Error"⟩]) := by
  decide

/-! ## Partition of the hostnames -/

theorem find?_eq_head?_filter {α : Type} (p : α → Bool) :
    ∀ l : List α, l.find? p = (l.filter p).head?
  | [] => rfl
  | a :: l => by
    by_cases h : p a = true
    · simp [List.find?, List.filter, h]
    · have h2 : p a = false := by simpa using h
      simp only [List.find?, List.filter, h2]
      exact find?_eq_head?_filter p l

/-- The state rebuilt from a remote application of which at most one hostname
matches the default pattern. -/
theorem readState_partition (state : PHP) (appPHP : CreatAppResponse)
    (hone : ((appPHP.Vhosts.map (fun vhost => vhost.Fqdn)).filter
      (fun vhost => vhostCleverAppsReg vhost)).length ≤ 1) :
    ∃ st, readState state appPHP = some st ∧
      (((appPHP.Vhosts.map (fun vhost => vhost.Fqdn)).filter
            (fun vhost => vhostCleverAppsReg vhost) = [] ∧ st.VHost = TString.null) ∨
        ∃ host, (appPHP.Vhosts.map (fun vhost => vhost.Fqdn)).filter
            (fun vhost => vhostCleverAppsReg vhost) = [host] ∧ st.VHost = TString.value host) ∧
      st.AdditionalVHosts =
        if (appPHP.Vhosts.map (fun vhost => vhost.Fqdn)).filter
            (fun vhost => !vhostCleverAppsReg vhost) = []
        then TList.null
        else TList.value
          (((appPHP.Vhosts.map (fun vhost => vhost.Fqdn)).filter
            (fun vhost => !vhostCleverAppsReg vhost)).map TString.value) := by
  have hadd : ∀ l : List String,
      (if l.length > 0 then pkg.FromListString l else TList.null)
        = if l = [] then TList.null else TList.value (l.map TString.value) := by
    intro l
    cases l <;> simp [pkg.FromListString]
  unfold readState
  simp only [pkg.Map, pkg.HasSome, pkg.Filter, pkg.First, pkg.FromStr, hadd]
  rw [find?_eq_head?_filter]
  cases hf : (appPHP.Vhosts.map (fun vhost => vhost.Fqdn)).filter
      (fun vhost => vhostCleverAppsReg vhost) with
  | nil =>
    have hany : (appPHP.Vhosts.map (fun vhost => vhost.Fqdn)).any
        (fun vhost => vhostCleverAppsReg vhost) = false := by
      rw [List.any_eq_false]
      exact List.filter_eq_nil_iff.mp hf
    rw [hany]
    exact ⟨_, rfl, Or.inl ⟨rfl, rfl⟩, rfl⟩
  | cons host rest =>
    have hrest : rest = [] := by
      rw [hf] at hone
      cases rest with
      | nil => rfl
      | cons _ _ => simp at hone
    subst hrest
    have hany : (appPHP.Vhosts.map (fun vhost => vhost.Fqdn)).any
        (fun vhost => vhostCleverAppsReg vhost) = true := by
      rw [List.any_eq_true]
      have hmem : host ∈ (appPHP.Vhosts.map (fun vhost => vhost.Fqdn)).filter
          (fun vhost => vhostCleverAppsReg vhost) := by
        rw [hf]
        exact List.mem_singleton.mpr rfl
      rw [List.mem_filter] at hmem
      exact ⟨host, hmem.1, hmem.2⟩
    rw [hany]
    exact ⟨_, rfl, Or.inr ⟨host, rfl, rfl⟩, rfl⟩

/-- C10: when the stored state is read, `GetApp` answers with a remote
application and the state can be written, `Read` ends with a state whose default
host is the one hostname matching the default pattern (null when none matches)
and whose additional hosts are the hostnames that do not match, in their order
(null when there are none), provided at most one hostname matches. -/
theorem Read_partitions_vhosts (r : Resource) (fw : Framework) (state : PHP)
    (stateDiags : List Diagnostic) (appPHP : CreatAppResponse)
    (hdiags : HasError stateDiags = false)
    (hget : r.cc.GetApp r.org state.ID.ValueString
      = { err := none, notFound := false, payload := some appPHP })
    (hset : ∀ value, HasError (fw.StateSet value) = false)
    (hone : ((appPHP.Vhosts.map (fun vhost => vhost.Fqdn)).filter
      (fun vhost => vhostCleverAppsReg vhost)).length ≤ 1) :
    ∃ st, (Read r fw state stateDiags).State = some st ∧
      (Read r fw state stateDiags).Panicked = false ∧
      (((appPHP.Vhosts.map (fun vhost => vhost.Fqdn)).filter
            (fun vhost => vhostCleverAppsReg vhost) = [] ∧ st.VHost = TString.null) ∨
        ∃ host, (appPHP.Vhosts.map (fun vhost => vhost.Fqdn)).filter
            (fun vhost => vhostCleverAppsReg vhost) = [host] ∧ st.VHost = TString.value host) ∧
      st.AdditionalVHosts =
        if (appPHP.Vhosts.map (fun vhost => vhost.Fqdn)).filter
            (fun vhost => !vhostCleverAppsReg vhost) = []
        then TList.null
        else TList.value
          (((appPHP.Vhosts.map (fun vhost => vhost.Fqdn)).filter
            (fun vhost => !vhostCleverAppsReg vhost)).map TString.value) := by
  obtain ⟨st, hst, hdef, hadd⟩ := readState_partition state appPHP hone
  refine ⟨st, ?_, ?_, hdef, hadd⟩
  · unfold Read
    simp only [hdiags, hget, hst, Response.IsNotFoundError, Response.HasError,
      HandlerResponse.Set, hset, HandlerResponse.call, Option.isSome, Bool.false_eq_true,
      if_false, Bool.false_and]
  · unfold Read
    simp only [hdiags, hget, hst, Response.IsNotFoundError, Response.HasError,
      HandlerResponse.Set, hset, HandlerResponse.call, Option.isSome, Bool.false_eq_true,
      if_false, Bool.false_and]

/-- C10, at the hostnames "app-abc123.cleverapps.io" and "www.example.com": the
default host is "app-abc123.cleverapps.io" and the additional hosts are
"www.example.com". -/
theorem Read_partitions_vhosts_witness :
    ((Read exampleResource exampleFramework storedState []).State.map
        (fun st => (st.VHost, st.AdditionalVHosts))
      = some (TString.value "app-abc123.cleverapps.io",
          TList.value [TString.value "www.example.com"])) ∧
    ∃ st, (Read exampleResource exampleFramework storedState []).State = some st ∧
      (Read exampleResource exampleFramework storedState []).Panicked = false ∧
      ((((exampleApp "app_1").Vhosts.map (fun vhost => vhost.Fqdn)).filter
            (fun vhost => vhostCleverAppsReg vhost) = [] ∧ st.VHost = TString.null) ∨
        ∃ host, ((exampleApp "app_1").Vhosts.map (fun vhost => vhost.Fqdn)).filter
            (fun vhost => vhostCleverAppsReg vhost) = [host] ∧ st.VHost = TString.value host) ∧
      st.AdditionalVHosts =
        if ((exampleApp "app_1").Vhosts.map (fun vhost => vhost.Fqdn)).filter
            (fun vhost => !vhostCleverAppsReg vhost) = []
        then TList.null
        else TList.value
          ((((exampleApp "app_1").Vhosts.map (fun vhost => vhost.Fqdn)).filter
            (fun vhost => !vhostCleverAppsReg vhost)).map TString.value) :=
  ⟨by decide,
    Read_partitions_vhosts exampleResource exampleFramework storedState [] (exampleApp "app_1")
      rfl rfl (fun _ => rfl) (by decide)⟩

theorem filter_head_mem {α : Type} (p : α → Bool) (l : List α) (a : α) (rest : List α)
    (h : l.filter p = a :: rest) : a ∈ l ∧ p a = true := by
  have hmem : a ∈ l.filter p := by
    rw [h]
    exact List.mem_cons_self a rest
  exact List.mem_filter.mp hmem

/-- The state rebuilt from a remote application, whatever its hostnames: the
rebuild never dereferences nil, the default host is the first hostname matching
the default pattern, the additional hosts are the hostnames that do not match,
and the build flavor is present only under separate build. -/
theorem readState_fields (state : PHP) (appPHP : CreatAppResponse) :
    ∃ st, readState state appPHP = some st ∧
      st.VHost =
        (match (appPHP.Vhosts.map (fun vhost => vhost.Fqdn)).filter
            (fun vhost => vhostCleverAppsReg vhost) with
          | [] => TString.null
          | host :: _ => TString.value host) ∧
      st.AdditionalVHosts =
        (if (appPHP.Vhosts.map (fun vhost => vhost.Fqdn)).filter
            (fun vhost => !vhostCleverAppsReg vhost) = []
        then TList.null
        else TList.value
          (((appPHP.Vhosts.map (fun vhost => vhost.Fqdn)).filter
            (fun vhost => !vhostCleverAppsReg vhost)).map TString.value)) ∧
      st.BuildFlavor =
        (if appPHP.SeparateBuild = true then TString.value appPHP.BuildFlavor.Name
          else TString.null) := by
  have hadd : ∀ l : List String,
      (if l.length > 0 then pkg.FromListString l else TList.null)
        = if l = [] then TList.null else TList.value (l.map TString.value) := by
    intro l
    cases l <;> simp [pkg.FromListString]
  unfold readState
  simp only [pkg.Map, pkg.HasSome, pkg.Filter, pkg.First, pkg.FromStr, hadd]
  rw [find?_eq_head?_filter]
  cases hf : (appPHP.Vhosts.map (fun vhost => vhost.Fqdn)).filter
      (fun vhost => vhostCleverAppsReg vhost) with
  | nil =>
    have hany : (appPHP.Vhosts.map (fun vhost => vhost.Fqdn)).any
        (fun vhost => vhostCleverAppsReg vhost) = false := by
      rw [List.any_eq_false]
      exact List.filter_eq_nil_iff.mp hf
    rw [hany]
    refine ⟨_, rfl, rfl, rfl, ?_⟩
    cases appPHP.SeparateBuild <;> rfl
  | cons host rest =>
    have hany : (appPHP.Vhosts.map (fun vhost => vhost.Fqdn)).any
        (fun vhost => vhostCleverAppsReg vhost) = true := by
      rw [List.any_eq_true]
      obtain ⟨h1, h2⟩ := filter_head_mem _ _ host rest hf
      exact ⟨host, h1, h2⟩
    rw [hany]
    refine ⟨_, rfl, rfl, rfl, ?_⟩
    cases appPHP.SeparateBuild <;> rfl

/-- When the stored state is read, `GetApp` answers with a remote application and
the state can be written, `Read` ends with the state rebuilt from that
application. -/
theorem Read_ok (r : Resource) (fw : Framework) (state : PHP)
    (stateDiags : List Diagnostic) (appPHP : CreatAppResponse) (st : PHP)
    (hdiags : HasError stateDiags = false)
    (hget : r.cc.GetApp r.org state.ID.ValueString
      = { err := none, notFound := false, payload := some appPHP })
    (hset : ∀ value, HasError (fw.StateSet value) = false)
    (hst : readState state appPHP = some st) :
    (Read r fw state stateDiags).State = some st ∧
      (Read r fw state stateDiags).Panicked = false := by
  constructor
  · unfold Read
    simp only [hdiags, hget, hst, Response.IsNotFoundError, Response.HasError,
      HandlerResponse.Set, hset, HandlerResponse.call, Option.isSome, Bool.false_eq_true,
      if_false, Bool.false_and]
  · unfold Read
    simp only [hdiags, hget, hst, Response.IsNotFoundError, Response.HasError,
      HandlerResponse.Set, hset, HandlerResponse.call, Option.isSome, Bool.false_eq_true,
      if_false, Bool.false_and]

theorem hosts_of_additional (l : List String) :
    (if l = [] then TList.null else TList.value (l.map TString.value)).hosts = l := by
  cases l with
  | nil => rfl
  | cons a rest =>
    simp only [reduceCtorEq, if_false, TList.hosts, List.map_map]
    have hid : (TString.ValueString ∘ TString.value) = id := rfl
    rw [hid, List.map_id]

/-- C11, as stated, fails: of the hostnames "app-abc123.cleverapps.io",
"app-def456.cleverapps.io" and "www.example.com" the first is reported as the
default host, and the second, which matches the default pattern too, is not
among the additional hosts: these are "www.example.com" alone. -/
theorem second_default_host_is_lost :
    (Read twoDefaultsResource exampleFramework storedState []).State.map
        (fun st => (st.VHost, st.AdditionalVHosts))
      = some (TString.value "app-abc123.cleverapps.io",
          TList.value [TString.value "www.example.com"]) ∧
    vhostCleverAppsReg "app-def456.cleverapps.io" = true ∧
    (Read twoDefaultsResource exampleFramework storedState []).State.map
        (fun st => decide ("app-def456.cleverapps.io" ∈ st.AdditionalVHosts.hosts))
      = some false := by
  decide

/-- C11, amended: when two or more hostnames of the remote application match
the default pattern, `Read` reports the first of them as the default host, the
additional hosts are the hostnames that do not match the pattern, in their
order, and every other matching hostname is absent from the additional hosts. -/
theorem Read_keeps_first_default_host (r : Resource) (fw : Framework) (state : PHP)
    (stateDiags : List Diagnostic) (appPHP : CreatAppResponse)
    (hdiags : HasError stateDiags = false)
    (hget : r.cc.GetApp r.org state.ID.ValueString
      = { err := none, notFound := false, payload := some appPHP })
    (hset : ∀ value, HasError (fw.StateSet value) = false)
    (hmany : 2 ≤ ((appPHP.Vhosts.map (fun vhost => vhost.Fqdn)).filter
      (fun vhost => vhostCleverAppsReg vhost)).length) :
    ∃ st host rest, (Read r fw state stateDiags).State = some st ∧
      (Read r fw state stateDiags).Panicked = false ∧
      (appPHP.Vhosts.map (fun vhost => vhost.Fqdn)).filter
          (fun vhost => vhostCleverAppsReg vhost) = host :: rest ∧
      rest ≠ [] ∧
      st.VHost = TString.value host ∧
      st.AdditionalVHosts.hosts
        = (appPHP.Vhosts.map (fun vhost => vhost.Fqdn)).filter
            (fun vhost => !vhostCleverAppsReg vhost) ∧
      ∀ other ∈ rest, other ∉ st.AdditionalVHosts.hosts := by
  obtain ⟨st, hst, hv, hadd, _⟩ := readState_fields state appPHP
  obtain ⟨hstate, hpanic⟩ := Read_ok r fw state stateDiags appPHP st hdiags hget hset hst
  have hhosts : st.AdditionalVHosts.hosts
      = (appPHP.Vhosts.map (fun vhost => vhost.Fqdn)).filter
          (fun vhost => !vhostCleverAppsReg vhost) := by
    rw [hadd]
    exact hosts_of_additional _
  cases hf : (appPHP.Vhosts.map (fun vhost => vhost.Fqdn)).filter
      (fun vhost => vhostCleverAppsReg vhost) with
  | nil =>
    rw [hf] at hmany
    simp at hmany
  | cons host rest =>
    rw [hf] at hv hmany
    refine ⟨st, host, rest, hstate, hpanic, rfl, ?_, hv, hhosts, ?_⟩
    · intro hnil
      rw [hnil] at hmany
      simp at hmany
    · intro other hother hin
      have hmatch : other ∈ (appPHP.Vhosts.map (fun vhost => vhost.Fqdn)).filter
          (fun vhost => vhostCleverAppsReg vhost) := by
        rw [hf]
        exact List.mem_cons_of_mem host hother
      rw [hhosts] at hin
      have h1 := (List.mem_filter.mp hmatch).2
      have h2 := (List.mem_filter.mp hin).2
      simp only [h1, Bool.not_true, Bool.false_eq_true] at h2

/-- C11, amended, at the hostnames "app-abc123.cleverapps.io",
"app-def456.cleverapps.io" and "www.example.com". -/
theorem Read_keeps_first_default_host_witness :
    ∃ st host rest,
      (Read twoDefaultsResource exampleFramework storedState []).State = some st ∧
      (Read twoDefaultsResource exampleFramework storedState []).Panicked = false ∧
      ((twoDefaultsApp "app_1").Vhosts.map (fun vhost => vhost.Fqdn)).filter
          (fun vhost => vhostCleverAppsReg vhost) = host :: rest ∧
      rest ≠ [] ∧
      st.VHost = TString.value host ∧
      st.AdditionalVHosts.hosts
        = ((twoDefaultsApp "app_1").Vhosts.map (fun vhost => vhost.Fqdn)).filter
            (fun vhost => !vhostCleverAppsReg vhost) ∧
      ∀ other ∈ rest, other ∉ st.AdditionalVHosts.hosts :=
  Read_keeps_first_default_host twoDefaultsResource exampleFramework storedState []
    (twoDefaultsApp "app_1") rfl rfl (fun _ => rfl) (by decide)

end ResourcePHP

/-! ## Build flavor of the canonical state -/

namespace ResourcePHP

/-- C12, as stated, fails: `applicationViewToApplicationModel` of a remote
application with separate build disabled and build flavor "M" gives the build
flavor "M", not null. -/
theorem generic_buildFlavor_not_gated :
    Clevercloud.remoteWithoutSeparateBuild.SeparateBuild = false ∧
      (Clevercloud.applicationViewToApplicationModel
          Clevercloud.remoteWithoutSeparateBuild).Build.BuildFlavor
        = { Unknown := false, Null := false, Value := "M" } := by
  decide

/-- C12, amended: the state written by the PHP resource's `Read` has a null
build flavor when the remote's separate-build flag is false and the remote's
build flavor name when it is true; `applicationViewToApplicationModel` gives a
known, non-null build flavor equal to the remote's build flavor name whatever
the flag. -/
theorem buildFlavor_of_canonical_state (r : Resource) (fw : Framework) (state : PHP)
    (stateDiags : List Diagnostic) (appPHP : CreatAppResponse)
    (hdiags : HasError stateDiags = false)
    (hget : r.cc.GetApp r.org state.ID.ValueString
      = { err := none, notFound := false, payload := some appPHP })
    (hset : ∀ value, HasError (fw.StateSet value) = false) :
    (∃ st, (Read r fw state stateDiags).State = some st ∧
      (Read r fw state stateDiags).Panicked = false ∧
      st.BuildFlavor =
        if appPHP.SeparateBuild = true then TString.value appPHP.BuildFlavor.Name
        else TString.null) ∧
    ∀ application : Clevercloud.ApplicationView,
      (Clevercloud.applicationViewToApplicationModel application).Build.BuildFlavor
        = { Unknown := false, Null := false, Value := application.BuildFlavor.Name } := by
  obtain ⟨st, hst, _, _, hbuild⟩ := readState_fields state appPHP
  obtain ⟨hstate, hpanic⟩ := Read_ok r fw state stateDiags appPHP st hdiags hget hset hst
  exact ⟨⟨st, hstate, hpanic, hbuild⟩, fun _ => rfl⟩

/-- C12, amended, at a remote application with separate build disabled that
reports the build flavor "M": `Read` writes a null build flavor. -/
theorem buildFlavor_of_canonical_state_witness :
    (Read withoutSeparateBuildResource exampleFramework storedState []).State.map
        (fun st => st.BuildFlavor) = some TString.null ∧
    ((∃ st, (Read withoutSeparateBuildResource exampleFramework storedState []).State = some st ∧
      (Read withoutSeparateBuildResource exampleFramework storedState []).Panicked = false ∧
      st.BuildFlavor =
        if (appWithoutSeparateBuild "app_1").SeparateBuild = true
        then TString.value (appWithoutSeparateBuild "app_1").BuildFlavor.Name
        else TString.null) ∧
    ∀ application : Clevercloud.ApplicationView,
      (Clevercloud.applicationViewToApplicationModel application).Build.BuildFlavor
        = { Unknown := false, Null := false, Value := application.BuildFlavor.Name }) :=
  ⟨by decide,
    buildFlavor_of_canonical_state withoutSeparateBuildResource exampleFramework storedState []
      (appWithoutSeparateBuild "app_1") rfl rfl (fun _ => rfl)⟩

end ResourcePHP

/-! ## Default resolution of the normaliser -/

namespace Clevercloud

theorem wannabeBase_defaults (plan : Application) (variant : AvailableInstanceView) :
    (wannabeBase plan variant).Description = plan.attributeDescriptionOrDefault ∧
      (wannabeBase plan variant).Zone = plan.attributeZoneOrDefault ∧
      (wannabeBase plan variant).Deploy = plan.attributeDeployTypeOrDefault ∧
      (wannabeBase plan variant).MinInstances
        = (if (!plan.Scalability.MinInstances.Unknown && !plan.Scalability.MinInstances.Null)
              = true
            then int32 (bigFloatInt64 plan.Scalability.MinInstances.Value) else 1) ∧
      (wannabeBase plan variant).MaxInstances
        = (if (!plan.Scalability.MaxInstances.Unknown && !plan.Scalability.MaxInstances.Null)
              = true
            then int32 (bigFloatInt64 plan.Scalability.MaxInstances.Value) else 1) := by
  unfold wannabeBase
  by_cases h1 : plan.Build.SeparateBuild.Unknown = true <;>
  simp only [h1, Bool.not_true, Bool.not_false, Bool.false_eq_true, if_true, if_false, and_self]

theorem flavorStep_defaults (plan : Application) (w : WannabeApplication) (flavor : FlavorView) :
    (flavorStep plan w flavor).Description = w.Description ∧
      (flavorStep plan w flavor).Zone = w.Zone ∧
      (flavorStep plan w flavor).Deploy = w.Deploy ∧
      (flavorStep plan w flavor).MinInstances = w.MinInstances ∧
      (flavorStep plan w flavor).MaxInstances = w.MaxInstances := by
  unfold flavorStep
  by_cases h1 : (!plan.Scalability.MinFlavor.Unknown
      && plan.Scalability.MinFlavor.Value == flavor.Name) = true <;>
  by_cases h2 : (!plan.Scalability.MaxFlavor.Unknown
      && plan.Scalability.MaxFlavor.Value == flavor.Name) = true <;>
  by_cases h3 : (!plan.Build.BuildFlavor.Unknown
      && plan.Build.BuildFlavor.Value == flavor.Name) = true <;>
  simp only [h1, h2, h3, Bool.false_eq_true, if_true, if_false, and_self]

theorem foldl_flavorStep_defaults (plan : Application) :
    ∀ (flavors : List FlavorView) (w : WannabeApplication),
      (flavors.foldl (flavorStep plan) w).Description = w.Description ∧
        (flavors.foldl (flavorStep plan) w).Zone = w.Zone ∧
        (flavors.foldl (flavorStep plan) w).Deploy = w.Deploy ∧
        (flavors.foldl (flavorStep plan) w).MinInstances = w.MinInstances ∧
        (flavors.foldl (flavorStep plan) w).MaxInstances = w.MaxInstances := by
  intro flavors
  induction flavors with
  | nil =>
    intro w
    exact ⟨rfl, rfl, rfl, rfl, rfl⟩
  | cons flavor rest ih =>
    intro w
    obtain ⟨s1, s2, s3, s4, s5⟩ := flavorStep_defaults plan w flavor
    obtain ⟨i1, i2, i3, i4, i5⟩ := ih (flavorStep plan w flavor)
    rw [List.foldl_cons, i1, i2, i3, i4, i5, s1, s2, s3, s4, s5]
    exact ⟨rfl, rfl, rfl, rfl, rfl⟩

theorem wannabeFlags_defaults (plan : Application) (w : WannabeApplication) :
    (wannabeFlags plan w).Description = w.Description ∧
      (wannabeFlags plan w).Zone = w.Zone ∧
      (wannabeFlags plan w).Deploy = w.Deploy ∧
      (wannabeFlags plan w).MinInstances = w.MinInstances ∧
      (wannabeFlags plan w).MaxInstances = w.MaxInstances := by
  unfold wannabeFlags
  by_cases h2 : plan.Properties.Homogeneous.Unknown = true <;>
  by_cases h3 : plan.Properties.StickySessions.Unknown = true <;>
  by_cases h4 : plan.Properties.CancelOnPush.Unknown = true <;>
  by_cases h5 : plan.Properties.ForceHTTPS.Unknown = true <;>
  by_cases h6 : plan.Favorite.Unknown = true <;>
  by_cases h7 : plan.Archived.Unknown = true <;>
  simp only [h2, h3, h4, h5, h6, h7, Bool.not_true, Bool.not_false, Bool.false_eq_true,
    if_true, if_false, and_self]

/-- The conversion of an integer count within the range of `int32` is exact. -/
theorem int32_bigFloatInt64_intCast (n : Int) (h1 : -(2 ^ 31) ≤ n) (h2 : n < 2 ^ 31) :
    int32 (bigFloatInt64 (n : ℚ)) = n := by
  unfold int32 bigFloatInt64
  simp only [Rat.num_intCast, Rat.den_intCast, Nat.cast_one, Int.tdiv_one]
  norm_num at h1 h2 ⊢
  have h3 : ¬ n < -9223372036854775808 := by omega
  have h4 : ¬ 9223372036854775807 < n := by omega
  simp only [h3, h4, if_false]
  omega

/-- C13, as stated, fails on the instance counts: with two and a half min
instances set the request carries 2, and with 2^32 + 1 max instances set the
request carries 1; neither is the operator's value. -/
theorem instance_counts_claim_fails :
    (scenarioResource.applicationModelToWannabeApplication exampleTfsdk
          planOddCounts).request?.map (fun w => (w.MinInstances, w.MaxInstances))
        = some (2, 1) ∧
      claimedInstances planOddCounts.Scalability.MinInstances = mkRat 5 2 ∧
      claimedInstances planOddCounts.Scalability.MaxInstances = 4294967297 ∧
      ((2 : Int) : ℚ) ≠ mkRat 5 2 ∧
      ((1 : Int) : ℚ) ≠ 4294967297 := by
  decide

/-- C13, amended: the request has description equal to the operator's
description when set and to the name when unset (unknown or null); zone equal
to the operator's zone when set and to "par" when unset; deploy mechanism equal
to the operator's value when set and to "GIT" when unset; min and max instance
counts equal to 1 when unset and, when set, to the operator's value truncated
towards zero and reduced to a signed 32-bit integer, which is the operator's
value itself when that is an integer within the range of `int32`. -/
theorem defaults_of_request (r : resourceApplication) (tf : Tfsdk)
    (plan : Application) (variant : AvailableInstanceView) (tags : List String)
    (hres : getInstanceByType r.p.client plan.Type_.Value = .ok variant)
    (htags : tf.ElementsAs plan.Tags = some tags) :
    ∃ w, r.applicationModelToWannabeApplication tf plan = .ok w ∧
      (w.Description =
        if plan.Description.Unknown = true ∨ plan.Description.Null = true
        then plan.Name.Value else plan.Description.Value) ∧
      (w.Zone =
        if plan.Zone.Unknown = true ∨ plan.Zone.Null = true then "par" else plan.Zone.Value) ∧
      (w.Deploy =
        if plan.DeployType.Unknown = true ∨ plan.DeployType.Null = true
        then "GIT" else plan.DeployType.Value) ∧
      (w.MinInstances =
        if plan.Scalability.MinInstances.Unknown = true ∨ plan.Scalability.MinInstances.Null = true
        then 1 else int32 (bigFloatInt64 plan.Scalability.MinInstances.Value)) ∧
      (w.MaxInstances =
        if plan.Scalability.MaxInstances.Unknown = true ∨ plan.Scalability.MaxInstances.Null = true
        then 1 else int32 (bigFloatInt64 plan.Scalability.MaxInstances.Value)) ∧
      ∀ n : Int, -(2 ^ 31) ≤ n → n < 2 ^ 31 → int32 (bigFloatInt64 (n : ℚ)) = n := by
  obtain ⟨f1, f2, f3, f4, f5⟩ :=
    wannabeFlags_defaults plan (variant.Flavors.foldl (flavorStep plan) (wannabeBase plan variant))
  obtain ⟨l1, l2, l3, l4, l5⟩ :=
    foldl_flavorStep_defaults plan variant.Flavors (wannabeBase plan variant)
  obtain ⟨b1, b2, b3, b4, b5⟩ := wannabeBase_defaults plan variant
  refine ⟨_, applicationModelToWannabeApplication_ok r tf plan variant tags hres htags,
    ?_, ?_, ?_, ?_, ?_, int32_bigFloatInt64_intCast⟩
  · show (wannabeOfInstance plan variant).Description = _
    unfold wannabeOfInstance
    rw [f1, l1, b1]
    unfold Application.attributeDescriptionOrDefault
    cases plan.Description.Unknown <;> cases plan.Description.Null <;> simp
  · show (wannabeOfInstance plan variant).Zone = _
    unfold wannabeOfInstance
    rw [f2, l2, b2]
    unfold Application.attributeZoneOrDefault
    cases plan.Zone.Unknown <;> cases plan.Zone.Null <;> simp
  · show (wannabeOfInstance plan variant).Deploy = _
    unfold wannabeOfInstance
    rw [f3, l3, b3]
    unfold Application.attributeDeployTypeOrDefault
    cases plan.DeployType.Unknown <;> cases plan.DeployType.Null <;> simp
  · show (wannabeOfInstance plan variant).MinInstances = _
    unfold wannabeOfInstance
    rw [f4, l4, b4]
    cases plan.Scalability.MinInstances.Unknown <;>
      cases plan.Scalability.MinInstances.Null <;> simp
  · show (wannabeOfInstance plan variant).MaxInstances = _
    unfold wannabeOfInstance
    rw [f5, l5, b5]
    cases plan.Scalability.MaxInstances.Unknown <;>
      cases plan.Scalability.MaxInstances.Null <;> simp

/-- C13, amended, at three specifications: everything unknown, everything
null, everything set (description "public api", zone "rbx", deploy "FTP", 2 to
4 instances). -/
theorem defaults_of_request_witness :
    ((scenarioResource.applicationModelToWannabeApplication exampleTfsdk scenarioPlan).request?.map
        (fun w => (w.Description, w.Zone, w.Deploy, w.MinInstances, w.MaxInstances))
      = some ("api", "par", "GIT", (1 : Int), (1 : Int)) ∧
    (scenarioResource.applicationModelToWannabeApplication exampleTfsdk planAllNull).request?.map
        (fun w => (w.Description, w.Zone, w.Deploy, w.MinInstances, w.MaxInstances))
      = some ("api", "par", "GIT", (1 : Int), (1 : Int)) ∧
    (scenarioResource.applicationModelToWannabeApplication exampleTfsdk planAllSet).request?.map
        (fun w => (w.Description, w.Zone, w.Deploy, w.MinInstances, w.MaxInstances))
      = some ("public api", "rbx", "FTP", (2 : Int), (4 : Int))) ∧
    ∃ w, scenarioResource.applicationModelToWannabeApplication exampleTfsdk planAllSet = .ok w ∧
      (w.Description =
        if planAllSet.Description.Unknown = true ∨ planAllSet.Description.Null = true
        then planAllSet.Name.Value else planAllSet.Description.Value) ∧
      (w.Zone =
        if planAllSet.Zone.Unknown = true ∨ planAllSet.Zone.Null = true
        then "par" else planAllSet.Zone.Value) ∧
      (w.Deploy =
        if planAllSet.DeployType.Unknown = true ∨ planAllSet.DeployType.Null = true
        then "GIT" else planAllSet.DeployType.Value) ∧
      (w.MinInstances =
        if planAllSet.Scalability.MinInstances.Unknown = true
            ∨ planAllSet.Scalability.MinInstances.Null = true
        then 1 else int32 (bigFloatInt64 planAllSet.Scalability.MinInstances.Value)) ∧
      (w.MaxInstances =
        if planAllSet.Scalability.MaxInstances.Unknown = true
            ∨ planAllSet.Scalability.MaxInstances.Null = true
        then 1 else int32 (bigFloatInt64 planAllSet.Scalability.MaxInstances.Value)) ∧
      ∀ n : Int, -(2 ^ 31) ≤ n → n < 2 ^ 31 → int32 (bigFloatInt64 (n : ℚ)) = n :=
  ⟨⟨by decide, by decide, by decide⟩,
    defaults_of_request scenarioResource exampleTfsdk planAllSet exampleVariant []
      (by decide) (by decide)⟩

end Clevercloud
